import Mathlib

/-!
Verification of the sentinel-core behavioral risk orchestrator.

This file gives a shallow embedding, in Lean 4, of the parts of the
sentinel-core source that the checked claims are about:

* `src/core/models/navigator.py`  — `NavigatorPolicyEngine`
* `src/core/models/mouse.py`      — `PhysicsMouseModel`
* `src/core/models/keyboard.py`   — `KeyboardAnomalyModel`, `RawMinMaxScaler`
* `src/core/processors/keyboard.py` — `KeyboardProcessor`
* `src/core/processors/mouse.py`  — `MouseProcessor`
* `src/core/orchestrator.py`      — `SentinelOrchestrator`
* `src/persistence/session_repository.py` — `SessionRepository` state
* `src/persistence/model_store.py` — `ModelStore.learn_with_retry`

Modelling conventions:

* Python floats are modelled by `ℚ`.  Real-valued transcendental
  primitives of the Python `math` module (`exp`, `sqrt`, `sin`, `cos`,
  `atan2`, `log`, `pi`) have no exact rational counterpart; they are
  collected in a `MathOps` parameter and passed to every definition that
  needs them.  No claim proved here depends on their values except where
  a hypothesis about them is stated explicitly.
* External-library components (the `river` HalfSpaceTrees detector, the
  `river` P² `Quantile` estimator and `Var` statistic, which are not part
  of this repository) are modelled as abstract state machines collected
  in a `RiverOps` parameter; the repository code wired around them
  (scaler, counters, calibration, learning gates) is embedded concretely.
* The Redis / Supabase stores are modelled as pure key-value maps inside
  a `Store` structure; the embedding follows the success path of each
  store operation (no socket failures, no CAS conflicts, sequential
  execution, no TTL expiry), which is the semantics of a single
  well-behaved client.
-/

namespace Sentinel

/-- Decision enum from `src/core/schemas/outputs.py` (`SentinelDecision`). -/
inductive SentinelDecision where
  | ALLOW
  | CHALLENGE
  | BLOCK
deriving DecidableEq, Repr

/-- Result of `NavigatorPolicyEngine.evaluate` (`SentinelAnalysis` in
`src/core/schemas/outputs.py`, restricted to the fields the engine fills). -/
structure SentinelAnalysis where
  decision : SentinelDecision
  risk_score : ℚ
  anomaly_vectors : List String
deriving DecidableEq, Repr

/-- Context metrics consumed by `NavigatorPolicyEngine.evaluate`
(`src/core/models/navigator.py`).  The Python code reads each entry of a
metrics dictionary with `metrics.get(name, default)`; a total structure
models a dictionary in which every key is present (a missing key is the
same as the key bound to the default value). -/
structure NavMetrics where
  geo_velocity_mph : ℚ := 0
  device_ip_mismatch : ℚ := 0
  policy_violation : ℚ := 0
  is_new_device : ℚ := 0
  is_unknown_user_agent : ℚ := 0
deriving DecidableEq, Repr

/-- Anomaly-vector list built by `NavigatorPolicyEngine.evaluate`
(`src/core/models/navigator.py`, lines 62-89).  The Python code appends to
one list in this fixed order; successive conditional appends are written
here as one concatenation of conditional singletons, which yields the same
list. -/
def navAnomalyVectors (m : NavMetrics) : List String :=
  (if m.geo_velocity_mph > 500 then ["impossible_travel"] else []) ++
  (if m.device_ip_mismatch = 1 then ["infra_mismatch"] else []) ++
  (if m.policy_violation = 1 then ["policy_violation"] else []) ++
  (if m.is_unknown_user_agent = 1 then ["unknown_user_agent"] else [])

/-- Clamped risk score of `NavigatorPolicyEngine.evaluate`
(`src/core/models/navigator.py`, lines 95-119): the maximum of
velocity, infrastructure, policy and device risk, clamped to [0, 1]. -/
def navRiskScore (m : NavMetrics) : ℚ :=
  min (max (max (max (max (min (m.geo_velocity_mph / 500) 1)
    m.device_ip_mismatch) m.policy_violation) (m.is_new_device * (1/2))) 0) 1

/-- `NavigatorPolicyEngine.evaluate` from `src/core/models/navigator.py`
(lines 45-137).  `MAX_VELOCITY = 500`, `BLOCK_THRESHOLD = 0.85`,
`CHALLENGE_THRESHOLD = 0.50`. -/
def navigatorEvaluate (m : NavMetrics) : SentinelAnalysis :=
  if navRiskScore m ≥ 0.85 then
    { decision := .BLOCK, risk_score := navRiskScore m,
      anomaly_vectors := navAnomalyVectors m }
  else if navRiskScore m ≥ 0.5 then
    { decision := .CHALLENGE, risk_score := navRiskScore m,
      anomaly_vectors := navAnomalyVectors m }
  else
    { decision := .ALLOW, risk_score := navRiskScore m,
      anomaly_vectors := navAnomalyVectors m }

/-- Mouse feature vector consumed by `PhysicsMouseModel.score_one`
(`src/core/models/mouse.py`).  As with `NavMetrics`, the Python code reads
a features dictionary with per-key defaults; a total structure models it. -/
structure MouseFeatures where
  velocity_max : ℚ := 0
  velocity_std : ℚ := 1
  path_distance : ℚ := 0
  time_diff_std : ℚ := 10
  segment_count : ℚ := 0
  linearity_error : ℚ := 1
deriving DecidableEq, Repr

/-- `PhysicsMouseModel.score_one` from `src/core/models/mouse.py`
(lines 82-165).  Tier 1 hard fails return risk 1 immediately; Tier 2
accumulates additive risk into `(risk, reasons)`; Tier 3 compares the
accumulated risk with `RISK_THRESHOLD = 0.7`. -/
def physicsScoreOne (f : MouseFeatures) : ℚ × List String :=
  if f.velocity_max > 9 then
    (1, ["teleport_speed"])
  else if f.path_distance > 300 ∧ f.linearity_error < 0.2 then
    (1, ["inhuman_linearity"])
  else
    let st : ℚ × List String := (0, [])
    let st :=
      if f.segment_count ≥ 20 ∧ f.time_diff_std < 0.02 then
        (st.1 + 0.35, st.2 ++ ["overly_regular_timing"])
      else st
    let st :=
      if f.velocity_std < 0.01 then
        (st.1 + 0.25, st.2 ++ ["low_velocity_jitter"])
      else st
    let st :=
      if f.path_distance > 150 ∧ f.linearity_error < 0.5 then
        (st.1 + 0.25, st.2 ++ ["excessive_linearity"])
      else st
    if st.1 ≥ 0.7 then (1, st.2) else (0, [])

/-- Feature vector tripping exactly two Tier-2 physics flags
(`low_velocity_jitter` and `excessive_linearity`, accumulated risk 0.5):
used as a concrete instance for the binary-risk property. -/
def tier2PartialFeatures : MouseFeatures :=
  { velocity_std := 0, path_distance := 200, linearity_error := 0.3 }

/-- Metrics vector with only an impossible travel velocity set. -/
def impossibleTravelMetrics : NavMetrics := { geo_velocity_mph := 1000 }

/-- Feature vector with only a teleport-speed velocity set. -/
def teleportFeatures : MouseFeatures := { velocity_max := 15 }

/-- Real-valued primitives of the Python `math` module used by the source.
They have no exact rational counterpart, so the embedding takes them as a
parameter; every claim proved below holds for arbitrary values of these
operations unless a hypothesis says otherwise. -/
structure MathOps where
  sqrt : ℚ → ℚ
  exp : ℚ → ℚ
  sin : ℚ → ℚ
  cos : ℚ → ℚ
  atan2 : ℚ → ℚ → ℚ
  log : ℚ → ℚ
  pi : ℚ

/-- Trivial instantiation of `MathOps`, used to run the embedding at
concrete inputs whose verified behaviour does not depend on the
transcendental values. -/
def zeroMathOps : MathOps :=
  { sqrt := fun _ => 0, exp := fun _ => 0, sin := fun _ => 0,
    cos := fun _ => 0, atan2 := fun _ _ => 0, log := fun _ => 0, pi := 0 }

/-- A keystroke feature dictionary: finite map from feature names to
values, modelled as an association list in insertion order (Python dicts
preserve insertion order). -/
def Features : Type := List (String × ℚ)

instance : DecidableEq Features := by unfold Features; infer_instance

instance : Repr Features := by unfold Features; infer_instance

/-- Hardcoded scaler bounds `RawMinMaxScaler._BOUNDS` from
`src/core/models/keyboard.py` (lines 39-45). -/
def scalerBounds (name : String) : Option (ℚ × ℚ) :=
  if name = "dwell_time_mean" then some (0, 500)
  else if name = "dwell_time_std" then some (0, 150)
  else if name = "flight_time_mean" then some (-100, 1200)
  else if name = "flight_time_std" then some (0, 400)
  else if name = "error_rate" then some (0, 3/10)
  else none

/-- `RawMinMaxScaler.transform_one` from `src/core/models/keyboard.py`
(lines 51-90): clip each known feature to its bounds and min-max scale to
[0, 1]; unknown features pass through unchanged. -/
def transform_one (x : Features) : Features :=
  x.map (fun p =>
    match scalerBounds p.1 with
    | some (lo, hi) =>
        let clipped := max lo (min hi p.2)
        (p.1, if hi - lo = 0 then 0 else (clipped - lo) / (hi - lo))
    | none => p)

/-- Abstract interface to the `river` online-learning primitives used by
`KeyboardAnomalyModel` (`src/core/models/keyboard.py`): the
HalfSpaceTrees detector (state type `D`), the P² streaming quantile
estimator (state type `Q`) and the running `Var` statistic (state type
`V`).  These are external library code, not part of this repository, so
only their interface is assumed. -/
structure RiverOps (D Q V : Type) where
  hstNew : D
  hstScore : D → Features → ℚ
  hstLearn : D → Features → D
  qNew : ℚ → Q
  qUpdate : Q → ℚ → Q
  qGet : Q → ℚ
  varNew : V
  varUpdate : V → ℚ → V
  varMean : V → ℚ
  varGet : V → ℚ

/-- The five quantile checkpoints `_QUANTILE_CHECKPOINTS` of
`KeyboardAnomalyModel`. -/
def quantileCheckpoints : List ℚ := [1/2, 3/4, 9/10, 95/100, 99/100]

/-- State of `KeyboardAnomalyModel` (`src/core/models/keyboard.py`).
The scaler is stateless (fixed bounds), so it has no field here.
`_score_count` is kept to mirror the source even though only debug output
reads it. -/
structure KeyboardAnomalyModel (D Q V : Type) where
  detector : D
  learnCount : ℕ
  scoreCount : ℕ
  quantileEstimators : List (ℚ × Q)
  featureStats : List (String × V)

/-- `KeyboardAnomalyModel.__init__`: fresh detector, zero counters, one
P² estimator per checkpoint, no feature statistics. -/
def KeyboardAnomalyModel.new {D Q V : Type} (R : RiverOps D Q V) :
    KeyboardAnomalyModel D Q V :=
  { detector := R.hstNew
    learnCount := 0
    scoreCount := 0
    quantileEstimators := quantileCheckpoints.map (fun q => (q, R.qNew q))
    featureStats := [] }

/-- Linear interpolation loop of `_compute_percentile_risk`
(`src/core/models/keyboard.py`, lines 285-299): walk adjacent checkpoint
pairs; on the first bracketing pair interpolate and stop; if no pair
brackets the score, fall back to the raw score (the `for ... else`
branch). -/
def percentileInterp (raw : ℚ) : List (ℚ × ℚ) → ℚ
  | (q1, v1) :: (q2, v2) :: rest =>
      if v1 ≤ raw ∧ raw ≤ v2 then
        if v2 - v1 > 0 then q1 + (raw - v1) / (v2 - v1) * (q2 - q1) else q1
      else percentileInterp raw ((q2, v2) :: rest)
  | _ => raw

/-- `KeyboardAnomalyModel._compute_percentile_risk` from
`src/core/models/keyboard.py` (lines 240-304).  With fewer than
`_HST_WINDOW_SIZE + _MIN_SAMPLES_FOR_PERCENTILE = 50 + 20` learned
samples the raw score is returned unchanged; otherwise the raw score is
ranked through the five quantile anchors. -/
def KeyboardAnomalyModel.compute_percentile_risk {D Q V : Type}
    (R : RiverOps D Q V) (m : KeyboardAnomalyModel D Q V) (raw : ℚ) : ℚ :=
  if m.learnCount < 50 + 20 then raw
  else
    match m.quantileEstimators.map (fun p => (p.1, R.qGet p.2)) with
    | [] => raw
    | (q0, v0) :: rest =>
        let lastPair := (((q0, v0) :: rest).getLast?).getD (q0, v0)
        if raw ≤ v0 then
          if v0 > 0 then raw / v0 * q0 else 0
        else if raw ≥ lastPair.2 then 1
        else percentileInterp raw ((q0, v0) :: rest)

/-- Z-score feature attribution of `KeyboardAnomalyModel.score_one`
(`src/core/models/keyboard.py`, lines 200-230): for each input feature
with recorded statistics and positive standard deviation, emit
`<name>_high` when the z-score exceeds 2 and `<name>_low` when it is
below -2. -/
def zScoreVectors {V : Type} (M : MathOps) (varMean varGet : V → ℚ)
    (stats : List (String × V)) (features : Features) : List String :=
  features.filterMap (fun p =>
    match (stats.find? (fun s => s.1 = p.1)).map Prod.snd with
    | none => none
    | some stat =>
        let sigma := M.sqrt (varGet stat)
        if sigma ≤ 0 then none
        else
          let z := (p.2 - varMean stat) / sigma
          if z > 2 then some (p.1 ++ "_high")
          else if z < -2 then some (p.1 ++ "_low")
          else none)

/-- `KeyboardAnomalyModel.score_one` from `src/core/models/keyboard.py`
(lines 151-238): scale, raw-score with the detector, calibrate to a
percentile risk, and attribute features when the risk exceeds the 0.6
anomaly threshold.  Returns the updated model (the source increments
`_score_count` in place) together with the risk and anomaly vectors. -/
def KeyboardAnomalyModel.score_one {D Q V : Type} (R : RiverOps D Q V)
    (M : MathOps) (m : KeyboardAnomalyModel D Q V) (features : Features) :
    KeyboardAnomalyModel D Q V × ℚ × List String :=
  let m1 := { m with scoreCount := m.scoreCount + 1 }
  let scaled := transform_one features
  let raw := R.hstScore m.detector scaled
  let risk := KeyboardAnomalyModel.compute_percentile_risk R m1 raw
  let vectors :=
    if risk > 0.6 then zScoreVectors M R.varMean R.varGet m.featureStats features
    else []
  (m1, risk, vectors)

/-- Upsert loop at the end of `KeyboardAnomalyModel.learn_one` updating
the per-feature `Var` statistics. -/
def updateFeatureStats {V : Type} (varNew : V) (varUpdate : V → ℚ → V) :
    List (String × V) → Features → List (String × V)
  | stats, [] => stats
  | stats, (name, value) :: rest =>
      let stats' :=
        if stats.any (fun s => s.1 = name) then
          stats.map (fun s => if s.1 = name then (s.1, varUpdate s.2 value) else s)
        else stats ++ [(name, varUpdate varNew value)]
      updateFeatureStats varNew varUpdate stats' rest

/-- `KeyboardAnomalyModel.learn_one` from `src/core/models/keyboard.py`
(lines 307-363): increment the learn counter, scale, raw-score before
learning, update the detector, feed the raw score to the quantile
estimators once past the 50-sample HST cold start, and update the
per-feature statistics. -/
def KeyboardAnomalyModel.learn_one {D Q V : Type} (R : RiverOps D Q V)
    (m : KeyboardAnomalyModel D Q V) (features : Features) :
    KeyboardAnomalyModel D Q V :=
  let learnCount := m.learnCount + 1
  let scaled := transform_one features
  let raw := R.hstScore m.detector scaled
  let detector := R.hstLearn m.detector scaled
  let quantileEstimators :=
    if learnCount > 50 then
      m.quantileEstimators.map (fun p => (p.1, R.qUpdate p.2 raw))
    else m.quantileEstimators
  { m with
      detector := detector
      learnCount := learnCount
      quantileEstimators := quantileEstimators
      featureStats := updateFeatureStats R.varNew R.varUpdate m.featureStats features }

/-- Constant-valued instantiation of `RiverOps` at `D = Q = V = ℚ`: the
detector always scores 1/4.  Used to run the embedding at concrete
inputs. -/
def constRiverOps : RiverOps ℚ ℚ ℚ :=
  { hstNew := 0
    hstScore := fun _ _ => 1/4
    hstLearn := fun d _ => d
    qNew := fun q => q
    qUpdate := fun q _ => q
    qGet := fun q => q
    varNew := 0
    varUpdate := fun v _ => v
    varMean := fun v => v
    varGet := fun v => v }

/-- A sample keystroke feature vector. -/
def sampleKeyFeatures : Features :=
  [("dwell_time_mean", 120), ("dwell_time_std", 30),
   ("flight_time_mean", 200), ("flight_time_std", 80), ("error_rate", 1/20)]

/-- `KeyEventType` from `src/core/schemas/inputs.py`. -/
inductive KeyEventType where
  | DOWN
  | UP
deriving DecidableEq, Repr

/-- `KeyboardEvent` from `src/core/schemas/inputs.py`. -/
structure KeyboardEvent where
  key : String
  event_type : KeyEventType
  timestamp : ℚ
deriving DecidableEq, Repr

/-- `KeyPress` from `src/core/processors/keyboard.py`: a paired key press
with DOWN and UP timestamps. -/
structure KeyPress where
  key : String
  press_time : ℚ
  release_time : ℚ
deriving DecidableEq, Repr

/-- `KeyPress.dwell_time`: time the key was held down. -/
def KeyPress.dwell_time (kp : KeyPress) : ℚ := kp.release_time - kp.press_time

/-- Mutable state of `KeyboardProcessor` (`src/core/processors/keyboard.py`,
lines 76-82).  `pending_downs` is a `defaultdict(list)` keyed by key name,
modelled as an association list where an absent key stands for the empty
list. -/
structure KeyProcState where
  pending_downs : List (String × List ℚ)
  key_presses : List KeyPress
  all_events : List KeyboardEvent
  keystroke_count : ℕ
deriving DecidableEq, Repr

/-- Fresh `KeyboardProcessor` state (`KeyboardProcessor.__init__`). -/
def KeyProcState.init : KeyProcState :=
  { pending_downs := [], key_presses := [], all_events := [], keystroke_count := 0 }

/-- Read a key's queue from the `defaultdict(list)` of pending DOWNs. -/
def pendingLookup (pd : List (String × List ℚ)) (k : String) : List ℚ :=
  ((pd.find? (fun e => e.1 = k)).map Prod.snd).getD []

/-- Write a key's queue back into the `defaultdict(list)` of pending
DOWNs. -/
def pendingSet (pd : List (String × List ℚ)) (k : String) (v : List ℚ) :
    List (String × List ℚ) :=
  if pd.any (fun e => e.1 = k) then
    pd.map (fun e => if e.1 = k then (k, v) else e)
  else pd ++ [(k, v)]

/-- `WINDOW_SIZE` from `src/core/processors/keyboard.py`. -/
def WINDOW_SIZE : ℕ := 50

/-- `WINDOW_STRIDE` from `src/core/processors/keyboard.py`. -/
def WINDOW_STRIDE : ℕ := 5

/-- `MAX_FLIGHT_TIME_MS` ("coffee break" pause cutoff). -/
def MAX_FLIGHT_TIME_MS : ℚ := 2000

/-- `KeyboardProcessor.ERROR_KEYS`. -/
def ERROR_KEYS : List String := ["Backspace", "Delete", "backspace", "delete"]

/-- `_mean` helper shared verbatim by `src/core/processors/keyboard.py`
and `src/core/processors/mouse.py`: arithmetic mean, 0 on an empty
list. -/
def listMean (values : List ℚ) : ℚ :=
  if values = [] then 0 else values.sum / values.length

/-- `_std` helper shared verbatim by `src/core/processors/keyboard.py`
and `src/core/processors/mouse.py`: population standard deviation, 0 on
fewer than 2 values.  The square root is the `MathOps` parameter. -/
def listStd (M : MathOps) (values : List ℚ) : ℚ :=
  if values.length < 2 then 0
  else
    let mean := listMean values
    M.sqrt ((values.map (fun x => (x - mean) ^ 2)).sum / values.length)

/-- `KeyboardProcessor._extract_flight_times`: flight time between each
adjacent pair of presses (`next DOWN - current UP`), keeping only flights
within the coffee-break cutoff. -/
def extract_flight_times (key_presses : List KeyPress) : List ℚ :=
  (key_presses.zip key_presses.tail).filterMap (fun p =>
    let flight := p.2.press_time - p.1.release_time
    if flight ≤ MAX_FLIGHT_TIME_MS then some flight else none)

/-- `KeyboardProcessor._calculate_error_rate`: ratio of error-correction
DOWN events to all DOWN events. -/
def calculate_error_rate (events : List KeyboardEvent) : ℚ :=
  let down_events := events.filter (fun e => e.event_type = .DOWN)
  if down_events = [] then 0
  else ((down_events.filter (fun e => e.key ∈ ERROR_KEYS)).length : ℚ) /
    down_events.length

/-- `KeyboardProcessor._empty_features`. -/
def emptyKeyFeatures : Features :=
  [("dwell_time_mean", 0), ("dwell_time_std", 0),
   ("flight_time_mean", 0), ("flight_time_std", 0), ("error_rate", 0)]

/-- `KeyboardProcessor._extract_features_from_window`
(`src/core/processors/keyboard.py`, lines 141-175): statistics over the
last `WINDOW_SIZE` presses sorted by press time, with the error rate
computed over the last `WINDOW_SIZE * 2` raw events. -/
def extract_features_from_window (M : MathOps) (s : KeyProcState) : Features :=
  let sorted_presses := s.key_presses.mergeSort
    (fun a b => a.press_time ≤ b.press_time)
  let window_presses := sorted_presses.drop (sorted_presses.length - WINDOW_SIZE)
  if window_presses.length < 2 then emptyKeyFeatures
  else
    let dwell_times := (window_presses.map KeyPress.dwell_time).filter (fun d => d ≥ 0)
    let flight_times := extract_flight_times window_presses
    let recent_events := s.all_events.drop (s.all_events.length - WINDOW_SIZE * 2)
    [("dwell_time_mean", listMean dwell_times),
     ("dwell_time_std", listStd M dwell_times),
     ("flight_time_mean", listMean flight_times),
     ("flight_time_std", listStd M flight_times),
     ("error_rate", calculate_error_rate recent_events)]

/-- The event-pairing half of `KeyboardProcessor.process_event`
(`src/core/processors/keyboard.py`, lines 98-119): append to the raw
event log; on DOWN enqueue the timestamp and count the keystroke; on UP
pop the oldest pending DOWN of that key to form a press. -/
def pairStep (s : KeyProcState) (e : KeyboardEvent) : KeyProcState :=
  let s0 := { s with all_events := s.all_events ++ [e] }
  match e.event_type with
  | .DOWN =>
      { s0 with
          pending_downs := pendingSet s0.pending_downs e.key
            (pendingLookup s0.pending_downs e.key ++ [e.timestamp])
          keystroke_count := s0.keystroke_count + 1 }
  | .UP =>
      match pendingLookup s0.pending_downs e.key with
      | [] => s0
      | press_time :: rest =>
          { s0 with
              pending_downs := pendingSet s0.pending_downs e.key rest
              key_presses := s0.key_presses ++
                [{ key := e.key, press_time := press_time,
                   release_time := e.timestamp }] }

/-- `KeyboardProcessor.process_event` from `src/core/processors/keyboard.py`
(lines 84-139): pair DOWN/UP events, count DOWN keystrokes, and emit a
feature window on DOWN events once the count reaches `WINDOW_SIZE` and on
every stride boundary after that. -/
def process_event (M : MathOps) (s : KeyProcState) (e : KeyboardEvent) :
    KeyProcState × Option Features :=
  let s1 := pairStep s e
  if s1.keystroke_count < WINDOW_SIZE then (s1, none)
  else
    let should_emit := s1.keystroke_count = WINDOW_SIZE ∨
      (s1.keystroke_count - WINDOW_SIZE) % WINDOW_STRIDE = 0
    if should_emit ∧ e.event_type = .DOWN then
      (s1, some (extract_features_from_window M s1))
    else (s1, none)

/-- Feed a list of events one at a time through the processor, starting
from state `s`, collecting each call's return value. -/
def runFrom (M : MathOps) (s : KeyProcState) : List KeyboardEvent → List (Option Features)
  | [] => []
  | e :: rest =>
      let step := process_event M s e
      step.2 :: runFrom M step.1 rest

/-- Feed a list of events through a fresh `KeyboardProcessor`. -/
def runProcessor (M : MathOps) (events : List KeyboardEvent) : List (Option Features) :=
  runFrom M KeyProcState.init events

/-- Number of DOWN events in a list. -/
def downCount (events : List KeyboardEvent) : ℕ :=
  (events.filter (fun e => e.event_type = .DOWN)).length

/-- A DOWN event on key `k` at time `t`. -/
def downEvent (k : String) (t : ℚ) : KeyboardEvent :=
  { key := k, event_type := .DOWN, timestamp := t }

/-- A list of `n` DOWN events on key "a" at successive timestamps. -/
def downBurst (n : ℕ) : List KeyboardEvent :=
  (List.range n).map (fun i => downEvent "a" i)

/-- `MouseEventType` from `src/core/schemas/inputs.py`. -/
inductive MouseEventType where
  | MOVE
  | CLICK
deriving DecidableEq, Repr

/-- `MouseEvent` from `src/core/schemas/inputs.py`. -/
structure MouseEvent where
  x : ℤ
  y : ℤ
  event_type : MouseEventType
  timestamp : ℚ
deriving DecidableEq, Repr

/-- `Segment` from `src/core/processors/mouse.py`: a validated movement
segment between two points. -/
structure Segment where
  distance : ℚ
  time_diff : ℚ
  velocity : ℚ
  angle : ℚ
  start_point : ℤ × ℤ
  end_point : ℤ × ℤ
deriving DecidableEq, Repr

/-- Mutable state of `MouseProcessor` (`src/core/processors/mouse.py`,
lines 83-91). -/
structure MouseProcState where
  event_buffer : List MouseEvent
  segment_buffer : List Segment
  last_event : Option MouseEvent
  stroke_count : ℕ
deriving DecidableEq, Repr

/-- Fresh `MouseProcessor` state. -/
def MouseProcState.init : MouseProcState :=
  { event_buffer := [], segment_buffer := [], last_event := none, stroke_count := 0 }

/-- `MouseProcessor._try_create_segment` (`src/core/processors/mouse.py`,
lines 190-230): build a segment between two events, filtering sub-pixel
noise, corrupted timestamps, and impossible velocities.
`MIN_SEGMENT_DISTANCE = 3`, `MIN_SEGMENT_TIME_MS = 4`,
`MAX_SEGMENT_TIME_MS = 2000`, `MAX_VELOCITY_PX_PER_MS = 8`. -/
def try_create_segment (M : MathOps) (p1 p2 : MouseEvent) : Option Segment :=
  let dx : ℚ := (p2.x - p1.x : ℤ)
  let dy : ℚ := (p2.y - p1.y : ℤ)
  let distance := M.sqrt (dx * dx + dy * dy)
  let time_diff := p2.timestamp - p1.timestamp
  if distance < 3 then none
  else if time_diff < 4 ∨ time_diff > 2000 then none
  else
    let velocity := distance / time_diff
    if velocity > 8 then none
    else some
      { distance := distance, time_diff := time_diff, velocity := velocity,
        angle := M.atan2 dy dx, start_point := (p1.x, p1.y),
        end_point := (p2.x, p2.y) }

/-- `MouseProcessor._angle_diff` reduction loops, with fuel: the Python
`while` loops shift by 2π until the difference lies within [-π, π].
Termination of the source loops relies on π being positive, which the
abstract `MathOps.pi` need not be, hence the explicit fuel. -/
def angleDiffShift (pi : ℚ) : ℕ → ℚ → ℚ
  | 0, d => d
  | n + 1, d =>
      if d > pi then angleDiffShift pi n (d - 2 * pi)
      else if d < -pi then angleDiffShift pi n (d + 2 * pi)
      else d

/-- `MouseProcessor._angle_diff`: signed angle difference with
wraparound. -/
def angle_diff (M : MathOps) (a1 a2 : ℚ) : ℚ :=
  angleDiffShift M.pi 1000 (a1 - a2)

/-- `MouseProcessor._circular_mean` (`src/core/processors/mouse.py`,
lines 357-368). -/
def circular_mean (M : MathOps) (angles : List ℚ) : ℚ :=
  if angles = [] then 0
  else M.atan2 ((angles.map M.sin).sum) ((angles.map M.cos).sum)

/-- `MouseProcessor._circular_std` (`src/core/processors/mouse.py`,
lines 370-392). -/
def circular_std (M : MathOps) (angles : List ℚ) : ℚ :=
  if angles.length < 2 then 0
  else
    let sin_sum := (angles.map M.sin).sum
    let cos_sum := (angles.map M.cos).sum
    let r0 := M.sqrt (sin_sum ^ 2 + cos_sum ^ 2) / angles.length
    let r1 := min 1 (max 0 r0)
    if r1 < 1 / 1000000000 then M.pi
    else if r1 ≥ 999999 / 1000000 then 0
    else M.sqrt (-2 * M.log r1)

/-- `MouseProcessor._calculate_linearity_error`
(`src/core/processors/mouse.py`, lines 291-337): mean perpendicular
distance of intermediate stroke points from the start-to-end chord. -/
def calculate_linearity_error (M : MathOps) (segments : List Segment) : ℚ :=
  if segments.length < 2 then 0
  else
    match segments with
    | [] => 0
    | seg0 :: _ =>
        let points := seg0.start_point :: segments.map Segment.end_point
        if points.length < 3 then 0
        else
          let start := points.headI
          let last := (points.getLast?).getD start
          let lineX : ℚ := (last.1 - start.1 : ℤ)
          let lineY : ℚ := (last.2 - start.2 : ℤ)
          let line_length := M.sqrt (lineX ^ 2 + lineY ^ 2)
          if line_length < 1 / 1000000000 then 0
          else
            let mids := (points.drop 1).dropLast
            let distances := mids.map (fun p =>
              |lineX * ((p.2 : ℚ) - (start.2 : ℤ)) -
                lineY * ((p.1 : ℚ) - (start.1 : ℤ))| / line_length)
            if distances = [] then 0
            else distances.sum / distances.length

/-- `MouseProcessor._extract_features` (`src/core/processors/mouse.py`,
lines 232-289). -/
def mouse_extract_features (M : MathOps) (segments : List Segment) : Features :=
  let velocities := segments.map Segment.velocity
  let angles := segments.map Segment.angle
  let time_diffs := segments.map Segment.time_diff
  let curvatures := (segments.zip segments.tail).filterMap (fun p =>
    let ad := angle_diff M p.2.angle p.1.angle
    if p.2.distance > 0 then some (|ad| / p.2.distance) else none)
  let path_distance := (segments.map Segment.distance).sum
  let net_distance :=
    match segments with
    | [] => 0
    | seg0 :: _ =>
        let startP := seg0.start_point
        let endP := ((segments.getLast?).map Segment.end_point).getD startP
        M.sqrt (((endP.1 - startP.1 : ℤ) : ℚ) ^ 2 + ((endP.2 - startP.2 : ℤ) : ℚ) ^ 2)
  let efficiency := if path_distance > 0 then min 1 (net_distance / path_distance) else 0
  let velocities_sorted := velocities.mergeSort (fun a b => a ≤ b)
  let p95_idx := velocities_sorted.length * 95 / 100
  let velocity_max := velocities_sorted.getD
    (min p95_idx (velocities_sorted.length - 1)) 0
  [("velocity_mean", listMean velocities),
   ("velocity_std", listStd M velocities),
   ("velocity_max", velocity_max),
   ("angle_mean", circular_mean M angles),
   ("angle_std", circular_std M angles),
   ("curvature_mean", if curvatures = [] then 0 else listMean curvatures),
   ("curvature_std", if curvatures = [] then 0 else listStd M curvatures),
   ("trajectory_efficiency", efficiency),
   ("path_distance", path_distance),
   ("linearity_error", calculate_linearity_error M segments),
   ("time_diff_std", listStd M time_diffs),
   ("segment_count", segments.length)]

/-- `MouseProcessor._flush_stroke` (`src/core/processors/mouse.py`,
lines 146-183): validate the buffered stroke (`MIN_STROKE_EVENTS = 10`
segments and `MIN_STROKE_DISTANCE = 50` px) and extract its features;
buffers are cleared in every case. -/
def flush_stroke (M : MathOps) (s : MouseProcState) :
    MouseProcState × Option Features :=
  let segments := s.segment_buffer
  let cleared := { s with event_buffer := [], segment_buffer := [] }
  if segments.length < 10 then (cleared, none)
  else if (segments.map Segment.distance).sum < 50 then (cleared, none)
  else ({ cleared with stroke_count := cleared.stroke_count + 1 },
    some (mouse_extract_features M segments))

/-- `MouseProcessor.process_event` (`src/core/processors/mouse.py`,
lines 93-144): flush on a pause longer than `PAUSE_THRESHOLD_MS = 500`,
flush on CLICK after trying to add the final segment, otherwise buffer
the MOVE segment.  The Python code overwrites the `features` local when
both a pause flush and a click flush occur in one call; this embedding
does the same. -/
def mouse_process_event (M : MathOps) (s : MouseProcState) (e : MouseEvent) :
    MouseProcState × Option Features :=
  let pauseStep :=
    match s.last_event with
    | some le =>
        if e.timestamp - le.timestamp > 500 ∧ s.segment_buffer.length > 0 then
          flush_stroke M s
        else (s, none)
    | none => (s, none)
  let s1 := pauseStep.1
  let features := pauseStep.2
  match e.event_type with
  | .CLICK =>
      let s2 :=
        match s1.last_event with
        | some le =>
            match try_create_segment M le e with
            | some seg => { s1 with segment_buffer := s1.segment_buffer ++ [seg] }
            | none => s1
        | none => s1
      let clickStep :=
        if s2.segment_buffer.length > 0 then flush_stroke M s2 else (s2, features)
      let features2 := if s2.segment_buffer.length > 0 then clickStep.2 else features
      ({ clickStep.1 with last_event := some e }, features2)
  | .MOVE =>
      let s2 :=
        match s1.last_event with
        | some le =>
            match try_create_segment M le e with
            | some seg => { s1 with segment_buffer := s1.segment_buffer ++ [seg] }
            | none => s1
        | none => s1
      ({ s2 with event_buffer := s2.event_buffer ++ [e], last_event := some e },
        features)

/-- `SessionState` dataclass from `src/persistence/session_repository.py`
(lines 34-69), with the same defaults.  `last_decision` is stored in Redis
as the decision's string value and re-parsed on read; since the enum text
round-trips exactly, the decision is stored directly here. -/
structure SessionState where
  mode : String := "NORMAL"
  strikes : ℚ := 0
  last_activity_ts : ℚ := 0
  last_verified_ts : ℚ := 0
  last_keyboard_batch_id : ℕ := 0
  last_mouse_batch_id : ℕ := 0
  learning_suspended_until : ℚ := 0
  last_clean_activity_ts : Option ℚ := none
  consecutive_allows : ℕ := 0
  last_strike_decay_ts : ℚ := 0
  challenge_entered_ts : ℚ := 0
  last_decision : Option SentinelDecision := none
  last_risk : Option ℚ := none
  last_eval_ts : Option ℚ := none
  last_eval_id : Option String := none
  trust_score : ℚ := 0
  last_context_change_ts : ℚ := 0
  keyboard_window_count : ℕ := 0
  keyboard_first_window_ts : ℚ := 0
  identity_ready : Bool := false
deriving DecidableEq, Repr

/-- Fresh session as created by `get_or_create_session` and by the atomic
update helpers when no session exists. -/
def SessionState.new (now : ℚ) : SessionState :=
  { last_activity_ts := now, last_strike_decay_ts := now }

/-- An entry of `completed_windows` / `completed_strokes`: the dictionary
`{features, score, event_ts}` appended by the stream handlers. -/
structure CompletedWindow where
  features : Features
  score : ℚ
  event_ts : ℚ
deriving DecidableEq, Repr

/-- `KeyboardState` dataclass from `src/persistence/session_repository.py`
(lines 72-85). -/
structure KeyboardState where
  completed_windows : List CompletedWindow := []
  pending_events : List KeyboardEvent := []
  last_score : ℚ := 0
  last_event_ts : ℚ := 0
deriving DecidableEq, Repr

/-- `MouseState` dataclass from `src/persistence/session_repository.py`
(lines 88-101). -/
structure MouseState where
  completed_strokes : List CompletedWindow := []
  pending_events : List MouseEvent := []
  last_score : ℚ := 0
  last_event_ts : ℚ := 0
deriving DecidableEq, Repr

/-- `ModelType` from `src/persistence/model_store.py`. -/
inductive ModelType where
  | HST
  | IDENTITY
deriving DecidableEq, Repr

/-- `StoredModel` from `src/persistence/model_store.py` (`user_id` and
`model_type` are the lookup key, so they are not repeated inside the
row). -/
structure StoredModel (D Q V : Type) where
  model : KeyboardAnomalyModel D Q V
  feature_window_count : ℕ
  model_version : ℕ

/-- Trusted user context persisted by `SentinelStateRepository`
(`src/persistence/repository.py`): the known-device set and last seen
network data.  The geo payload is opaque to every claim and is omitted;
the capping of `known_devices` at 20 uses a random eviction that no claim
touches, so it is not modelled. -/
structure TrustedContext where
  known_devices : List String := []
  last_ip : Option String := none
deriving DecidableEq, Repr

/-- The persistence layer as one value: the Redis keys of
`SessionRepository` (`SESSION:`, `KEYBOARD_STATE:`, `MOUSE_STATE:`,
`EVAL_DEDUP:`, `blacklist:`), the Supabase model rows of `ModelStore`
keyed by (model type, user), and the trusted contexts of
`SentinelStateRepository`. -/
structure Store (D Q V : Type) where
  sessions : String → Option SessionState
  keyboards : String → Option KeyboardState
  mouses : String → Option MouseState
  dedup : String → Bool
  models : ModelType → String → Option (StoredModel D Q V)
  trusted : String → Option TrustedContext
  bans : String → Bool

/-- Point update of a string-keyed map. -/
def setKey {α : Type} (f : String → Option α) (k : String) (v : α) :
    String → Option α :=
  fun k2 => if k2 = k then some v else f k2

/-- Store with no keys at all. -/
def Store.empty {D Q V : Type} : Store D Q V :=
  { sessions := fun _ => none, keyboards := fun _ => none,
    mouses := fun _ => none, dedup := fun _ => false,
    models := fun _ _ => none, trusted := fun _ => none,
    bans := fun _ => false }

/-- `SessionRepository.get_or_create_session`: read the session or create
and save one with fresh-session defaults. -/
def Store.get_or_create_session {D Q V : Type} (σ : Store D Q V)
    (sid : String) (now : ℚ) : Store D Q V × SessionState :=
  match σ.sessions sid with
  | some s => (σ, s)
  | none =>
      let s := SessionState.new now
      ({ σ with sessions := setKey σ.sessions sid s }, s)

/-- `SessionRepository.get_keyboard_state`: stored state or defaults. -/
def Store.get_keyboard_state {D Q V : Type} (σ : Store D Q V)
    (sid : String) : KeyboardState :=
  (σ.keyboards sid).getD ({} : KeyboardState)

/-- `SessionRepository.get_mouse_state`: stored state or defaults. -/
def Store.get_mouse_state {D Q V : Type} (σ : Store D Q V)
    (sid : String) : MouseState :=
  (σ.mouses sid).getD ({} : MouseState)

/-- The buffer caps applied inside `update_keyboard_stream_atomic`
(`MAX_COMPLETED_ITEMS = 20`, `MAX_PENDING_EVENTS = 50`; Python `l[-n:]`
keeps the most recent `n`). -/
def capKeyboard (kb : KeyboardState) : KeyboardState :=
  { kb with
      completed_windows := kb.completed_windows.drop
        (kb.completed_windows.length - 20)
      pending_events := kb.pending_events.drop (kb.pending_events.length - 50) }

/-- The buffer caps applied inside `update_mouse_stream_atomic`. -/
def capMouse (ms : MouseState) : MouseState :=
  { ms with
      completed_strokes := ms.completed_strokes.drop
        (ms.completed_strokes.length - 20)
      pending_events := ms.pending_events.drop (ms.pending_events.length - 50) }

/-- `SessionRepository.update_keyboard_stream_atomic` (success path):
re-read the session (or fresh defaults), apply the updates, cap the
keyboard buffers, and write both keys. -/
def Store.update_keyboard_stream_atomic {D Q V : Type} (σ : Store D Q V)
    (sid : String) (f : SessionState → SessionState) (kb : KeyboardState)
    (now : ℚ) : Store D Q V :=
  let s := (σ.sessions sid).getD (SessionState.new now)
  { σ with
      sessions := setKey σ.sessions sid (f s)
      keyboards := setKey σ.keyboards sid (capKeyboard kb) }

/-- `SessionRepository.update_mouse_stream_atomic` (success path). -/
def Store.update_mouse_stream_atomic {D Q V : Type} (σ : Store D Q V)
    (sid : String) (f : SessionState → SessionState) (ms : MouseState)
    (now : ℚ) : Store D Q V :=
  let s := (σ.sessions sid).getD (SessionState.new now)
  { σ with
      sessions := setKey σ.sessions sid (f s)
      mouses := setKey σ.mouses sid (capMouse ms) }

/-- `SessionRepository.update_session_atomic` (success path). -/
def Store.update_session_atomic {D Q V : Type} (σ : Store D Q V)
    (sid : String) (f : SessionState → SessionState) (now : ℚ) :
    Store D Q V × SessionState :=
  let s := (σ.sessions sid).getD (SessionState.new now)
  ({ σ with sessions := setKey σ.sessions sid (f s) }, f s)

/-- `SessionRepository.is_eval_processed`: false for an absent id. -/
def Store.is_eval_processed {D Q V : Type} (σ : Store D Q V)
    (eid : String) : Bool :=
  if eid = "" then false else σ.dedup eid

/-- `SessionRepository.mark_eval_processed`: set the dedup key (60 s TTL
not modelled). -/
def Store.mark_eval_processed {D Q V : Type} (σ : Store D Q V)
    (eid : String) : Store D Q V :=
  if eid = "" then σ
  else { σ with dedup := fun k => if k = eid then true else σ.dedup k }

/-- `EvaluateResponse` from `src/core/schemas/outputs.py`. -/
structure EvaluateResponse where
  decision : SentinelDecision
  risk : ℚ
  mode : String
deriving DecidableEq, Repr

/-- `SessionRepository.get_cached_eval_response`: the last persisted
decision/risk/mode of the session, if any.  When `last_decision` is set,
`last_risk` was set by the same write, so the default 0 below is never
read on reachable stores. -/
def Store.get_cached_eval_response {D Q V : Type} (σ : Store D Q V)
    (sid : String) : Option EvaluateResponse :=
  match σ.sessions sid with
  | none => none
  | some s =>
      match s.last_decision with
      | none => none
      | some d => some { decision := d, risk := s.last_risk.getD 0, mode := s.mode }

/-- `ModelStore.learn_with_retry` (`src/persistence/model_store.py`,
lines 197-263), success path of a single sequential caller: the
non-blocking per-user lock is free, there is no version conflict, and the
save succeeds.  A missing row is created from the factory with version 1;
an existing row is trained in place with the version bumped and
`feature_window_count` incremented. -/
def Store.learn_with_retry {D Q V : Type} (σ : Store D Q V)
    (user : String) (t : ModelType)
    (learnFn : KeyboardAnomalyModel D Q V → KeyboardAnomalyModel D Q V)
    (newModel : KeyboardAnomalyModel D Q V) (window_increment : ℕ) :
    Store D Q V :=
  let row :=
    match σ.models t user with
    | none =>
        { model := learnFn newModel, feature_window_count := window_increment,
          model_version := 1 }
    | some r =>
        { model := learnFn r.model,
          feature_window_count := r.feature_window_count + window_increment,
          model_version := r.model_version + 1 }
  { σ with models := fun t2 u2 => if t2 = t ∧ u2 = user then some row else σ.models t2 u2 }

/-- `SentinelStateRepository.get_trusted_context`
(`src/persistence/repository.py`, lines 58-113): returns None when there
is no history or the device set is empty (the TOFU condition). -/
def Store.get_trusted_context {D Q V : Type} (σ : Store D Q V)
    (user : String) : Option TrustedContext :=
  match σ.trusted user with
  | none => none
  | some tc => if tc.known_devices = [] then none else some tc

/-- `SentinelStateRepository.save_trusted_context`
(`src/persistence/repository.py`, lines 115-166): append the device id if
new and non-empty, update the last seen ip. -/
def Store.save_trusted_context {D Q V : Type} (σ : Store D Q V)
    (user device_id ip : String) : Store D Q V :=
  let tc := (σ.trusted user).getD ({} : TrustedContext)
  let devices :=
    if device_id = "" ∨ device_id ∈ tc.known_devices then tc.known_devices
    else tc.known_devices ++ [device_id]
  let tc2 : TrustedContext := { known_devices := devices, last_ip := some ip }
  { σ with trusted := setKey σ.trusted user tc2 }

/-- Modelled from the spec: `KeyboardStreamPayload` is imported by the
orchestrator from `core.schemas.inputs` but that class is missing from
`src/`; spec section 6 gives the wire body
`{session_id, user_id, batch_id >= 1, events:[KeyEvent]}`. -/
structure KeyboardStreamPayload where
  session_id : String
  user_id : String
  batch_id : ℕ
  events : List KeyboardEvent
deriving DecidableEq, Repr

/-- Modelled from the spec: `MouseStreamPayload`, the mouse counterpart of
`KeyboardStreamPayload` (spec section 6). -/
structure MouseStreamPayload where
  session_id : String
  user_id : String
  batch_id : ℕ
  events : List MouseEvent
deriving DecidableEq, Repr

/-- Modelled from the spec: `EvaluatePayload` is imported by the
orchestrator from `core.schemas.inputs` but that class is missing from
`src/`; spec section 6 gives the body fields.  Only the fields the
orchestrator itself reads appear here: the remaining request context
(user agent, role, endpoint, business context, ...) feeds only the
external context processor, which this embedding abstracts as the
`navOf` oracle.  An absent `eval_id` is the empty string (Python treats
both None and "" as falsy in the guards involved). -/
structure EvaluatePayload where
  session_id : String
  eval_id : String := ""
  user_id : String
  ip_address : String := ""
  device_id : Option String := none
deriving DecidableEq, Repr

/-- Python `int()` truncation toward zero on a rational. -/
def pyInt (q : ℚ) : ℤ := if q ≥ 0 then ⌊q⌋ else ⌈q⌉

/-- `features.get(name, default)` on a feature dictionary. -/
def lookupFeature (f : Features) (name : String) (default : ℚ) : ℚ :=
  ((f.find? (fun q => q.1 = name)).map Prod.snd).getD default

/-- The feature reads at the top of `PhysicsMouseModel.score_one`
(`src/core/models/mouse.py`, lines 96-102), applied to a feature
dictionary coming out of the mouse extractor. -/
def toMouseFeatures (f : Features) : MouseFeatures :=
  { velocity_max := lookupFeature f "velocity_max" 0
    velocity_std := lookupFeature f "velocity_std" 1
    path_distance := lookupFeature f "path_distance" 0
    time_diff_std := lookupFeature f "time_diff_std" 10
    segment_count := lookupFeature f "segment_count" 0
    linearity_error := lookupFeature f "linearity_error" 1 }

/-- Fusion weight table `WEIGHTS` of `src/core/orchestrator.py`
(lines 54-57), keyed by session mode.  The only modes ever stored are
"NORMAL" and "CHALLENGE". -/
structure FusionWeights where
  keyboard : ℚ
  mouse : ℚ
  navigator : ℚ
  identity : ℚ
deriving DecidableEq, Repr

/-- `WEIGHTS[mode]`. -/
def weightsFor (mode : String) : FusionWeights :=
  if mode = "CHALLENGE" then
    { keyboard := 0.85, mouse := 1, navigator := 1, identity := 0.85 }
  else
    { keyboard := 0.70, mouse := 0.90, navigator := 1, identity := 0.65 }

/-- Decision threshold table `THRESHOLDS` of `src/core/orchestrator.py`
(lines 60-63). -/
structure FusionThresholds where
  allow : ℚ
  challenge : ℚ
deriving DecidableEq, Repr

/-- `THRESHOLDS[mode]`. -/
def thresholdsFor (mode : String) : FusionThresholds :=
  if mode = "CHALLENGE" then { allow := 0.40, challenge := 0.75 }
  else { allow := 0.50, challenge := 0.85 }

/-- `TRUSTED_THRESHOLDS` of `src/core/orchestrator.py` (line 66). -/
def trustedThresholds : FusionThresholds := { allow := 0.60, challenge := 0.92 }

/-- `SentinelOrchestrator._apply_decay` (`src/core/orchestrator.py`,
lines 641-666): exponential decay of a stored score over the event-time
gap, time constant `DECAY_TIME_CONSTANT = 45` s. -/
def apply_decay (M : MathOps) (prev_score prev_event_ts current_event_ts : ℚ) : ℚ :=
  if prev_event_ts ≤ 0 then prev_score
  else
    let delta_seconds := (current_event_ts - prev_event_ts) / 1000
    if delta_seconds ≤ 0 then prev_score
    else prev_score * M.exp (-(delta_seconds / 45))

/-- `SentinelOrchestrator._update_learning_suspension`
(`src/core/orchestrator.py`, lines 672-694): suspend learning for 30 s on
navigator risk at or above 0.85; clear the suspension after 60 s of
continuous clean (risk below 0.5) activity. -/
def update_learning_suspension (s : SessionState) (navigator_risk now : ℚ) :
    SessionState :=
  if navigator_risk ≥ 0.85 then
    { s with learning_suspended_until := now + 30 * 1000,
             last_clean_activity_ts := none }
  else if navigator_risk < 0.5 then
    match s.last_clean_activity_ts with
    | none => { s with last_clean_activity_ts := some now }
    | some t =>
        if now - t ≥ 60 * 1000 then
          { s with learning_suspended_until := 0, last_clean_activity_ts := some now }
        else s
  else { s with last_clean_activity_ts := none }

/-- `SentinelOrchestrator._apply_strike_decay` (`src/core/orchestrator.py`,
lines 696-707): subtract 0.5 strike per full 10 s interval since the last
decay, at most 6 intervals per call. -/
def apply_strike_decay (s : SessionState) (now : ℚ) : SessionState :=
  let time_since := now - s.last_strike_decay_ts
  let intervals : ℤ := min (pyInt (time_since / (10 * 1000))) 6
  if intervals > 0 then
    { s with strikes := max 0 (s.strikes - 0.5 * (intervals : ℚ)),
             last_strike_decay_ts := now }
  else s

/-- `SentinelOrchestrator._update_strikes` (`src/core/orchestrator.py`,
lines 709-723). -/
def update_strikes (s : SessionState) (decision : SentinelDecision) :
    SessionState :=
  match decision with
  | .BLOCK =>
      { s with strikes := s.strikes + 2, consecutive_allows := 0, trust_score := 0 }
  | .CHALLENGE => { s with strikes := s.strikes + 1, consecutive_allows := 0 }
  | .ALLOW => { s with consecutive_allows := s.consecutive_allows + 1 }

/-- `SentinelOrchestrator._update_trust` (`src/core/orchestrator.py`,
lines 725-737): zero the trust on identity risk at or above 0.9,
otherwise move it by `0.12 * (0.5 - final_risk)` and clamp to [0, 1]. -/
def update_trust (s : SessionState) (final_risk identity_risk : ℚ) :
    SessionState :=
  if identity_risk ≥ 0.9 then { s with trust_score := 0 }
  else
    let ts := max 0 (min 1 (s.trust_score + 0.12 * (0.5 - final_risk)))
    { s with trust_score := ts }

/-- `SentinelOrchestrator._update_mode` (`src/core/orchestrator.py`,
lines 739-760): NORMAL enters CHALLENGE on a CHALLENGE decision;
CHALLENGE returns to NORMAL after enough consecutive allows and enough
time in challenge. -/
def update_mode (s : SessionState) (decision : SentinelDecision)
    (hysteresis_allows : ℕ) (hysteresis_time now : ℚ) : SessionState :=
  if decision = .CHALLENGE ∧ s.mode = "NORMAL" then
    { s with mode := "CHALLENGE", challenge_entered_ts := now,
             consecutive_allows := 0 }
  else if s.mode = "CHALLENGE" then
    if s.consecutive_allows ≥ hysteresis_allows ∧
        now - s.challenge_entered_ts ≥ hysteresis_time * 1000 then
      { s with mode := "NORMAL", consecutive_allows := 0 }
    else s
  else s

/-- `SentinelOrchestrator._apply_keyboard_confidence`
(`src/core/orchestrator.py`, lines 556-582): geometric mean of time-based
and count-based confidence, scaling the raw keyboard risk. -/
def apply_keyboard_confidence (M : MathOps) (raw_risk : ℚ) (s : SessionState)
    (now : ℚ) : ℚ :=
  let conf_time :=
    if s.keyboard_first_window_ts > 0 then
      min 1 ((now - s.keyboard_first_window_ts) / (20 * 1000))
    else 0
  let conf_count := min 1 ((s.keyboard_window_count : ℚ) / 15)
  let confidence :=
    if conf_time > 0 ∧ conf_count > 0 then M.sqrt (conf_time * conf_count) else 0
  raw_risk * confidence

/-- `SentinelOrchestrator._apply_trust_inactivity_decay`
(`src/core/orchestrator.py`, lines 584-594): decay the trust score over
the time since the last evaluate, half-life constant 300 s. -/
def apply_trust_inactivity_decay (M : MathOps) (s : SessionState) (now : ℚ) :
    SessionState :=
  if s.last_verified_ts > 0 then
    { s with trust_score :=
        s.trust_score * M.exp (-((now - s.last_verified_ts) / (300 * 1000))) }
  else s

/-- `SentinelOrchestrator._should_learn_identity`
(`src/core/orchestrator.py`, lines 762-788); the historical
`cold_start_identity` guard is deliberately absent from the source
(BUG-002 fix). -/
def should_learn_identity (s : SessionState) (navigator_risk now : ℚ) : Bool :=
  if s.mode ≠ "NORMAL" then false
  else if now < s.learning_suspended_until then false
  else if navigator_risk ≥ 0.5 then false
  else if s.trust_score < 0.65 then false
  else if s.consecutive_allows < 5 then false
  else if now - s.last_context_change_ts < 30 * 1000 then false
  else true

/-- The cold-start test `stored_hst is None or feature_window_count < 50`
used at `src/core/orchestrator.py` lines 532 and 825. -/
def Store.hstColdStart {D Q V : Type} (σ : Store D Q V) (user : String) : Bool :=
  match σ.models .HST user with
  | none => true
  | some r => r.feature_window_count < 50

/-- `SentinelOrchestrator._compute_identity_risk`
(`src/core/orchestrator.py`, lines 596-635): average the stored identity
model's scores over the last 3-5 completed windows.  Returns
(identity_risk, identity_confidence, cold_start, stored model).  The
`try/except` around scoring cannot fire in this pure embedding, and the
empty-scores branch is kept for structural fidelity. -/
def compute_identity_risk {D Q V : Type} (R : RiverOps D Q V) (M : MathOps)
    (σ : Store D Q V) (user_id : String) (kb : KeyboardState) :
    ℚ × ℚ × Bool × Option (StoredModel D Q V) :=
  let windows := kb.completed_windows.drop (kb.completed_windows.length - 5)
  if windows.length < 3 then (0, 0, true, none)
  else
    match σ.models .IDENTITY user_id with
    | none => (0, 0, true, none)
    | some stored =>
        let identity_confidence := min 1 ((stored.feature_window_count : ℚ) / 150)
        if identity_confidence = 0 then (0, 0, true, some stored)
        else
          let scores := windows.map (fun w =>
            (KeyboardAnomalyModel.score_one R M stored.model w.features).2.1)
          if scores = [] then (0, 0, true, some stored)
          else
            let identity_risk := min 1 (max 0 (scores.sum / scores.length))
            (identity_risk, identity_confidence, false, some stored)

/-- Train a keyboard anomaly model on every window of a list (the
`learn_hst` / `learn_identity` closures in `_finalize_evaluate`). -/
def learnWindows {D Q V : Type} (R : RiverOps D Q V)
    (m : KeyboardAnomalyModel D Q V) (windows : List CompletedWindow) :
    KeyboardAnomalyModel D Q V :=
  windows.foldl (fun acc w => KeyboardAnomalyModel.learn_one R acc w.features) m

/-- The session-state updates at the top of `_finalize_evaluate`
(`src/core/orchestrator.py`, lines 811-819): strikes, mode hysteresis,
trust stabilizer, in source order. -/
def preFinalSession (session : SessionState) (decision : SentinelDecision)
    (risk identity_risk : ℚ) (hysteresis_allows : ℕ)
    (hysteresis_time now : ℚ) : SessionState :=
  update_trust
    (update_mode (update_strikes session decision) decision hysteresis_allows
      hysteresis_time now)
    risk identity_risk

/-- The identity-ready flag and audit fields written to the session at
the end of `_finalize_evaluate` (`src/core/orchestrator.py`,
lines 903-912). -/
def auditSession (s : SessionState) (payload : EvaluatePayload)
    (decision : SentinelDecision) (risk now : ℚ) : SessionState :=
  let s :=
    if decision = SentinelDecision.ALLOW ∧ s.identity_ready = false then
      { s with identity_ready := true }
    else s
  { s with
      last_decision := some decision
      last_risk := some risk
      last_eval_ts := some now
      last_verified_ts := now
      last_eval_id := if payload.eval_id = "" then none else some payload.eval_id
      last_activity_ts := now }

/-- The store writes of the non-aborting tail of `_finalize_evaluate`
(`src/core/orchestrator.py`, lines 852-937): cold-start bootstrap
learning on CHALLENGE, identity learning, the TOFU write-behind, the
session commit with audit fields, the dedup marker, and the provisional
ban on BLOCK (NX: an existing ban is not overwritten). -/
def finalizeStore {D Q V : Type} (R : RiverOps D Q V) (σ : Store D Q V)
    (payload : EvaluatePayload) (session : SessionState)
    (decision : SentinelDecision) (risk : ℚ) (keyboard_state : KeyboardState)
    (navigator_risk now : ℚ) : Store D Q V :=
  let user_id := payload.user_id
  let σ :=
    if decision = .CHALLENGE ∧ keyboard_state.completed_windows ≠ [] ∧
        σ.hstColdStart user_id = true then
      σ.learn_with_retry user_id .HST
        (fun m => learnWindows R m keyboard_state.completed_windows)
        (KeyboardAnomalyModel.new R) keyboard_state.completed_windows.length
    else σ
  let σ :=
    if decision = .ALLOW ∧ should_learn_identity session navigator_risk now ∧
        keyboard_state.completed_windows ≠ [] then
      let windows := keyboard_state.completed_windows.drop
        (keyboard_state.completed_windows.length - 5)
      σ.learn_with_retry user_id .IDENTITY
        (fun m => learnWindows R m windows)
        (KeyboardAnomalyModel.new R) windows.length
    else σ
  let σ :=
    match payload.device_id with
    | some did =>
        if decision = SentinelDecision.ALLOW ∧ session.mode = "NORMAL" then
          Store.save_trusted_context σ user_id did payload.ip_address
        else σ
    | none => σ
  let σ := (σ.update_session_atomic payload.session_id
    (fun _ => auditSession session payload decision risk now) now).1
  let σ := σ.mark_eval_processed payload.eval_id
  if decision = .BLOCK then
    if σ.bans user_id then σ
    else { σ with bans := fun u => if u = user_id then true else σ.bans u }
  else σ

/-- `SentinelOrchestrator._finalize_evaluate` (`src/core/orchestrator.py`,
lines 790-943).  Returns the store after all writes together with the
response; a `none` response models the uncaught Python exception path,
which `main.py` converts to HTTP 500.

One such path exists: when HST learning fires (decision ALLOW, mode ok,
learning not suspended, completed windows present), the source — after
`learn_with_retry` and after clearing the in-memory window list — calls
`self.repo._save_keyboard_state(...)`, a method `SessionRepository` does
not define.  That call raises `AttributeError`, so the model-store write
survives but neither the cleared keyboard state nor the session nor the
dedup marker is persisted, and no response is returned.

`skip_strike_update` is False at every call site, so it is not a
parameter here. -/
def finalize_evaluate {D Q V : Type} (R : RiverOps D Q V) (σ : Store D Q V)
    (payload : EvaluatePayload) (session : SessionState)
    (decision : SentinelDecision) (risk : ℚ) (keyboard_state : KeyboardState)
    (navigator_risk identity_risk : ℚ) (hysteresis_allows : ℕ)
    (hysteresis_time now : ℚ) : Store D Q V × Option EvaluateResponse :=
  let user_id := payload.user_id
  let session := preFinalSession session decision risk identity_risk
    hysteresis_allows hysteresis_time now
  let hst_mode_ok := session.mode = "NORMAL" ∨ σ.hstColdStart user_id = true
  if decision = .ALLOW ∧ hst_mode_ok ∧ now ≥ session.learning_suspended_until ∧
      keyboard_state.completed_windows ≠ [] then
    -- Learn all windows, then abort on the missing
    -- `SessionRepository._save_keyboard_state` method (AttributeError).
    let σ := σ.learn_with_retry user_id .HST
      (fun m => learnWindows R m keyboard_state.completed_windows)
      (KeyboardAnomalyModel.new R) keyboard_state.completed_windows.length
    (σ, none)
  else
    (finalizeStore R σ payload session decision risk keyboard_state
      navigator_risk now,
     some { decision := decision, risk := risk,
            mode := (auditSession session payload decision risk now).mode })

/-- The hard-block cascade, weighted MAX fusion, cold-start override and
finalize dispatch of `SentinelOrchestrator.evaluate`
(`src/core/orchestrator.py`, lines 431-550), as a function of the values
the pipeline computed before it. -/
def decideAndFinalize {D Q V : Type} (R : RiverOps D Q V) (M : MathOps)
    (σ : Store D Q V) (payload : EvaluatePayload) (session4 : SessionState)
    (kb : KeyboardState) (mouse_risk keyboard_risk navigator_risk : ℚ)
    (navDecision : SentinelDecision) (identity_risk identity_confidence : ℚ)
    (now : ℚ) : Store D Q V × Option EvaluateResponse :=
  if session4.strikes ≥ 3 then
    finalize_evaluate R σ payload { session4 with trust_score := 0 }
      .BLOCK 1 kb navigator_risk identity_risk 5 20 now
  else if mouse_risk ≥ 1 - 0.001 then
    finalize_evaluate R σ payload { session4 with trust_score := 0 }
      .BLOCK 1 kb navigator_risk identity_risk 5 20 now
  else if navDecision = .BLOCK then
    finalize_evaluate R σ payload { session4 with trust_score := 0 }
      .BLOCK 1 kb navigator_risk identity_risk 5 20 now
  else if identity_confidence ≥ 0.6 ∧ identity_risk ≥ 0.95 then
    finalize_evaluate R σ payload { session4 with trust_score := 0 }
      .BLOCK 1 kb navigator_risk identity_risk 5 20 now
  else if session4.identity_ready = true ∧ identity_confidence < 0.6 ∧
      identity_risk ≥ 0.98 then
    finalize_evaluate R σ payload session4 .CHALLENGE identity_risk kb
      navigator_risk identity_risk 5 20 now
  else
    let is_trusted := session4.trust_score ≥ 0.75
    let weights := weightsFor session4.mode
    let thresholds :=
      if is_trusted then trustedThresholds else thresholdsFor session4.mode
    let keyboard_risk2 := if is_trusted then keyboard_risk * 0.8 else keyboard_risk
    let identity_weight0 :=
      if is_trusted then weights.identity * 0.6 else weights.identity
    let hysteresis_allows := if is_trusted then 3 else 5
    let hysteresis_time : ℚ := if is_trusted then 10 else 20
    let effective_identity_risk := identity_risk * identity_confidence
    let identity_weight := identity_weight0 * M.sqrt identity_confidence
    let final_risk0 := max (max (keyboard_risk2 * weights.keyboard)
      (mouse_risk * weights.mouse)) (max (navigator_risk * weights.navigator)
      (effective_identity_risk * identity_weight))
    let final_risk := max 0 (min 1 final_risk0)
    let decision0 :=
      if final_risk < thresholds.allow then SentinelDecision.ALLOW
      else if final_risk < thresholds.challenge then SentinelDecision.CHALLENGE
      else SentinelDecision.BLOCK
    let decision :=
      if σ.hstColdStart payload.user_id = true ∧ decision0 = .ALLOW ∧
          kb.completed_windows = [] then
        SentinelDecision.CHALLENGE
      else decision0
    finalize_evaluate R σ payload session4 decision final_risk kb
      navigator_risk identity_risk hysteresis_allows hysteresis_time now

/-- The body of `SentinelOrchestrator.evaluate` past the idempotency check
(`src/core/orchestrator.py`, lines 340-550).  The external context
processor (geo-IP, user-agent parsing) is abstracted as the `navOf`
oracle producing the metrics dictionary for a payload; the policy engine
applied to those metrics is the embedded `navigatorEvaluate`. -/
def evaluate_uncached {D Q V : Type} (R : RiverOps D Q V) (M : MathOps)
    (navOf : EvaluatePayload → NavMetrics) (σ : Store D Q V)
    (payload : EvaluatePayload) (now : ℚ) :
    Store D Q V × Option EvaluateResponse :=
  match σ.sessions payload.session_id with
  | none => (σ, some { decision := .CHALLENGE, risk := 0.5, mode := "NORMAL" })
  | some session0 =>
      let kb := σ.get_keyboard_state payload.session_id
      let ms := σ.get_mouse_state payload.session_id
      let keyboard_risk_raw := kb.last_score
      let mouse_risk := ms.last_score
      let nav_analysis := navigatorEvaluate (navOf payload)
      let user_id := payload.user_id
      let trusted_context := σ.get_trusted_context user_id
      let navigator_risk :=
        if trusted_context = none ∧ nav_analysis.risk_score = 0.5 then 0
        else nav_analysis.risk_score
      let session1 :=
        if navigator_risk ≥ 0.5 then { session0 with last_context_change_ts := now }
        else session0
      let session2 := update_learning_suspension session1 navigator_risk now
      let session3 := apply_strike_decay session2 now
      let keyboard_risk := apply_keyboard_confidence M keyboard_risk_raw session3 now
      let session4 := apply_trust_inactivity_decay M session3 now
      let idr := compute_identity_risk R M σ user_id kb
      decideAndFinalize R M σ payload session4 kb mouse_risk keyboard_risk
        navigator_risk nav_analysis.decision idr.1 idr.2.1 now

/-- `SentinelOrchestrator.evaluate` (`src/core/orchestrator.py`,
lines 332-550), including the idempotency short-circuit: a processed
`eval_id` with a cached response returns the cache and touches nothing;
otherwise the full pipeline runs. -/
def evaluate {D Q V : Type} (R : RiverOps D Q V) (M : MathOps)
    (navOf : EvaluatePayload → NavMetrics) (σ : Store D Q V)
    (payload : EvaluatePayload) (now : ℚ) :
    Store D Q V × Option EvaluateResponse :=
  if σ.is_eval_processed payload.eval_id = true then
    match σ.get_cached_eval_response payload.session_id with
    | some cached => (σ, some cached)
    | none => evaluate_uncached R M navOf σ payload now
  else evaluate_uncached R M navOf σ payload now

/-- Result of a stream write: accepted (HTTP 204) or rejected as a
replay (`ReplayAttackError`, HTTP 400). -/
inductive StreamResult where
  | accepted
  | replayError
deriving DecidableEq, Repr

/-- State of the keyboard replay/ingest fold: processor state, pending
events accumulator, emitted (features, event timestamp) pairs, maximum
event timestamp. -/
structure KeyStreamAcc where
  proc : KeyProcState
  pending : List KeyboardEvent
  feats : List (Features × ℚ)
  lastTs : ℚ

/-- `SentinelOrchestrator.process_keyboard_stream`
(`src/core/orchestrator.py`, lines 149-259): batch high-water-mark check,
gap handling, replay of stored pending events through a fresh processor
(with trim after the last replay-emitted window), ingest of the new
events, scoring of every emitted window with event-time decay, and the
atomic session + keyboard-state commit.  The commit's session closure
copies only the batch id, activity timestamp and the two keyboard window
counters — in particular not `strikes`. -/
def process_keyboard_stream {D Q V : Type} (R : RiverOps D Q V) (M : MathOps)
    (σ : Store D Q V) (p : KeyboardStreamPayload) (now : ℚ) :
    Store D Q V × StreamResult :=
  let created := σ.get_or_create_session p.session_id now
  let σ0 := created.1
  let session := created.2
  let kb0 := σ0.get_keyboard_state p.session_id
  if p.batch_id ≤ session.last_keyboard_batch_id then (σ0, .replayError)
  else
    let gap := p.batch_id - session.last_keyboard_batch_id
    let kb1 := if gap > 10 then ({} : KeyboardState) else kb0
    let session1 :=
      if gap > 10 then
        { session with
            strikes := session.strikes + 0.5
            keyboard_window_count := 0
            keyboard_first_window_ts := 0 }
      else session
    -- replay stored pending events through a fresh processor
    let replayed := kb1.pending_events.foldl
      (fun (acc : KeyProcState × List (Features × ℚ) × Option ℕ × ℕ) ev =>
        let stepped := process_event M acc.1 ev
        match stepped.2 with
        | some f => (stepped.1, acc.2.1 ++ [(f, ev.timestamp)], some acc.2.2.2,
            acc.2.2.2 + 1)
        | none => (stepped.1, acc.2.1, acc.2.2.1, acc.2.2.2 + 1))
      (KeyProcState.init, [], none, 0)
    let trimmedPending :=
      match replayed.2.2.1 with
      | some i => kb1.pending_events.drop (i + 1)
      | none => kb1.pending_events
    let hst_model :=
      match σ0.models .HST p.user_id with
      | some row => row.model
      | none => KeyboardAnomalyModel.new R
    -- ingest new events
    let ingested := p.events.foldl
      (fun (acc : KeyStreamAcc) ev =>
        let lastTs := max acc.lastTs ev.timestamp
        let stepped := process_event M acc.proc ev
        let pending := acc.pending ++ [ev]
        match stepped.2 with
        | some f =>
            { proc := stepped.1, pending := pending,
              feats := acc.feats ++ [(f, ev.timestamp)], lastTs := lastTs }
        | none =>
            { proc := stepped.1, pending := pending, feats := acc.feats,
              lastTs := lastTs })
      { proc := replayed.1, pending := trimmedPending, feats := replayed.2.1,
        lastTs := kb1.last_event_ts }
    -- score every emitted window
    let scored := ingested.feats.foldl
      (fun (acc : KeyboardState × SessionState × List KeyboardEvent) fp =>
        let kb := acc.1
        let sess := acc.2.1
        let score := (KeyboardAnomalyModel.score_one R M hst_model fp.1).2.1
        let decayed :=
          if now < sess.learning_suspended_until then kb.last_score
          else apply_decay M kb.last_score kb.last_event_ts fp.2
        let kb2 := { kb with
          last_score := max decayed score
          completed_windows := kb.completed_windows ++
            [{ features := fp.1, score := score, event_ts := fp.2 }] }
        let sess2 :=
          if sess.keyboard_first_window_ts = 0 then
            { sess with keyboard_first_window_ts := now }
          else sess
        let sess3 := { sess2 with
          keyboard_window_count := sess2.keyboard_window_count + 1 }
        (kb2, sess3, ([] : List KeyboardEvent)))
      (kb1, session1, ingested.pending)
    let kbFinal := { scored.1 with
      pending_events := scored.2.2
      last_event_ts := ingested.lastTs }
    let sessAfter := scored.2.1
    let σ1 := σ0.update_keyboard_stream_atomic p.session_id
      (fun s => { s with
        last_keyboard_batch_id := p.batch_id
        last_activity_ts := now
        keyboard_window_count := sessAfter.keyboard_window_count
        keyboard_first_window_ts := sessAfter.keyboard_first_window_ts })
      kbFinal now
    (σ1, .accepted)

/-- State of the mouse ingest fold. -/
structure MouseStreamAcc where
  proc : MouseProcState
  pending : List MouseEvent
  state : MouseState
  lastTs : ℚ

/-- `SentinelOrchestrator.process_mouse_stream`
(`src/core/orchestrator.py`, lines 265-326): batch high-water-mark check,
gap handling, replay of stored pending events (whose emissions are
discarded — the source ignores them for the mouse), ingest and physics
scoring of new strokes, and the atomic commit whose session closure
copies only the batch id and activity timestamp — not `strikes`. -/
def process_mouse_stream {D Q V : Type} (M : MathOps) (σ : Store D Q V)
    (p : MouseStreamPayload) (now : ℚ) : Store D Q V × StreamResult :=
  let created := σ.get_or_create_session p.session_id now
  let σ0 := created.1
  let session := created.2
  let ms0 := σ0.get_mouse_state p.session_id
  if p.batch_id ≤ session.last_mouse_batch_id then (σ0, .replayError)
  else
    let gap := p.batch_id - session.last_mouse_batch_id
    let ms1 := if gap > 10 then ({} : MouseState) else ms0
    -- the gap branch also adds 0.5 to the in-memory session's strikes;
    -- that object is not the one the commit closure writes, so the
    -- increment has no effect on the store and no field of it is read
    -- again below — it is therefore not threaded here
    let replayProc := ms1.pending_events.foldl
      (fun (st : MouseProcState) ev => (mouse_process_event M st ev).1)
      MouseProcState.init
    let ingested := p.events.foldl
      (fun (acc : MouseStreamAcc) ev =>
        let lastTs := max acc.lastTs ev.timestamp
        let stepped := mouse_process_event M acc.proc ev
        let pending := acc.pending ++ [ev]
        match stepped.2 with
        | some f =>
            let score := (physicsScoreOne (toMouseFeatures f)).1
            { proc := stepped.1, pending := []
              state := { acc.state with
                last_score := max acc.state.last_score score
                completed_strokes := acc.state.completed_strokes ++
                  [{ features := f, score := score, event_ts := lastTs }] }
              lastTs := lastTs }
        | none =>
            { acc with proc := stepped.1, pending := pending, lastTs := lastTs })
      { proc := replayProc, pending := [], state := ms1, lastTs := ms1.last_event_ts }
    let msFinal := { ingested.state with
      pending_events := ingested.pending
      last_event_ts := ingested.lastTs }
    let σ1 := σ0.update_mouse_stream_atomic p.session_id
      (fun s => { s with
        last_mouse_batch_id := p.batch_id
        last_activity_ts := now })
      msFinal now
    (σ1, .accepted)

/-- One externally visible operation against the service: a keyboard
stream write, a mouse stream write, or an evaluate call, each at some
wall-clock instant (milliseconds). -/
inductive Op where
  | keyboard (p : KeyboardStreamPayload) (now : ℚ)
  | mouse (p : MouseStreamPayload) (now : ℚ)
  | evaluate (p : EvaluatePayload) (now : ℚ)

/-- Effect of one operation on the store. -/
def stepOp {D Q V : Type} (R : RiverOps D Q V) (M : MathOps)
    (navOf : EvaluatePayload → NavMetrics) (σ : Store D Q V) : Op → Store D Q V
  | .keyboard p now => (process_keyboard_stream R M σ p now).1
  | .mouse p now => (process_mouse_stream M σ p now).1
  | .evaluate p now => (evaluate R M navOf σ p now).1

/-- Effect of a sequence of operations on the store. -/
def runOps {D Q V : Type} (R : RiverOps D Q V) (M : MathOps)
    (navOf : EvaluatePayload → NavMetrics) (σ : Store D Q V)
    (ops : List Op) : Store D Q V :=
  ops.foldl (stepOp R M navOf) σ

/-- Context-processor oracle returning all-zero metrics for every
payload (private network, known device, clean role). -/
def zeroNavOf : EvaluatePayload → NavMetrics := fun _ => {}

/-- The empty store at the rational instantiation used by the concrete
scenarios. -/
def qEmpty : Store ℚ ℚ ℚ := Store.empty

/-- A completed keyboard window as stored by the stream handler. -/
def oneWindow : CompletedWindow :=
  { features := sampleKeyFeatures, score := 3/10, event_ts := 5 }

/-- Store holding one NORMAL-mode session "s" whose keyboard state has
one completed window: a minimal store on which an evaluate reaches the
HST-learning branch with decision ALLOW. -/
def c1Store : Store ℚ ℚ ℚ :=
  { qEmpty with
      sessions := setKey qEmpty.sessions "s" {}
      keyboards := setKey qEmpty.keyboards "s"
        { completed_windows := [oneWindow], last_score := 1/5 } }

/-- Evaluate request for session "s" of user "u". -/
def c1Payload : EvaluatePayload :=
  { session_id := "s", eval_id := "E1", user_id := "u" }

/-- The evaluate run that reaches the HST-learning branch. -/
def c1Run : Store ℚ ℚ ℚ × Option EvaluateResponse :=
  evaluate constRiverOps zeroMathOps zeroNavOf c1Store c1Payload 0

/-- Session with 1 strike whose last accepted keyboard batch is 1. -/
def c2Session : SessionState := { strikes := 1, last_keyboard_batch_id := 1 }

/-- Store holding only the session for the batch-gap scenario. -/
def c2Store : Store ℚ ℚ ℚ :=
  { qEmpty with sessions := setKey qEmpty.sessions "s" c2Session }

/-- Keyboard stream write with batch id 12 after last seen 1: a gap of
11, beyond the tolerance of 10.  The spec's payload schema does not
require the event list to be non-empty. -/
def c2Payload : KeyboardStreamPayload :=
  { session_id := "s", user_id := "u", batch_id := 12, events := [] }

/-- The gap-triggering keyboard stream run. -/
def c2Run : Store ℚ ℚ ℚ × StreamResult :=
  process_keyboard_stream constRiverOps zeroMathOps c2Store c2Payload 0

/-- Store holding one fresh NORMAL-mode session "s". -/
def c3Store : Store ℚ ℚ ℚ :=
  { qEmpty with sessions := setKey qEmpty.sessions "s" {} }

/-- Evaluate request used for the finalize scenarios. -/
def c3Payload : EvaluatePayload :=
  { session_id := "s", eval_id := "E3", user_id := "u" }

/-- Finalize of a BLOCK decision on a NORMAL-mode session. -/
def c3BlockRun : Store ℚ ℚ ℚ × Option EvaluateResponse :=
  finalize_evaluate constRiverOps c3Store c3Payload {} .BLOCK 1
    ({} : KeyboardState) 0 0 5 20 7

/-- Context-processor oracle for the idempotency scenario: the request
carrying `eval_id` "Y" comes with an impossible travel velocity, every
other request is clean. -/
def c4NavOf : EvaluatePayload → NavMetrics := fun p =>
  if p.eval_id = "Y" then { geo_velocity_mph := 1000 } else {}

/-- First and third evaluate request of the idempotency scenario. -/
def c4PayloadX : EvaluatePayload :=
  { session_id := "s", eval_id := "X", user_id := "u" }

/-- Interleaved evaluate request with a different `eval_id`. -/
def c4PayloadY : EvaluatePayload :=
  { session_id := "s", eval_id := "Y", user_id := "u" }

/-- Store holding one fresh session "s" for the idempotency scenario. -/
def c4Store : Store ℚ ℚ ℚ :=
  { qEmpty with sessions := setKey qEmpty.sessions "s" {} }

/-- The trust invariant over a store: every stored session's trust score
lies in [0, 1], and a session whose last persisted decision is BLOCK has
trust score exactly 0 (the decision and the trust are written by the same
atomic session commit). -/
def TrustInv {D Q V : Type} (σ : Store D Q V) : Prop :=
  ∀ sid s, σ.sessions sid = some s →
    0 ≤ s.trust_score ∧ s.trust_score ≤ 1 ∧
    (s.last_decision = some .BLOCK → s.trust_score = 0)

/-- An evaluate outcome satisfies the BLOCK-zero property when any BLOCK
response comes with a persisted session whose trust score is 0. -/
def BlockZero {D Q V : Type} (p : EvaluatePayload)
    (out : Store D Q V × Option EvaluateResponse) : Prop :=
  ∀ r, out.2 = some r → r.decision = .BLOCK →
    ∃ s2, out.1.sessions p.session_id = some s2 ∧ s2.trust_score = 0

/-- First call with `eval_id` "X". -/
def c4Run1 : Store ℚ ℚ ℚ × Option EvaluateResponse :=
  evaluate constRiverOps zeroMathOps c4NavOf c4Store c4PayloadX 0

/-- Interleaved call with `eval_id` "Y" on the same session. -/
def c4Run2 : Store ℚ ℚ ℚ × Option EvaluateResponse :=
  evaluate constRiverOps zeroMathOps c4NavOf c4Run1.1 c4PayloadY 0

/-- Second call with `eval_id` "X", after the interleaved call. -/
def c4Run3 : Store ℚ ℚ ℚ × Option EvaluateResponse :=
  evaluate constRiverOps zeroMathOps c4NavOf c4Run2.1 c4PayloadX 0

/-- Mouse stream write with batch id 1 and no events: it creates session
"s" from the empty store. -/
def c5MousePayload : MouseStreamPayload :=
  { session_id := "s", user_id := "u", batch_id := 1, events := [] }

/-- Operation sequence that reaches a store holding session "s", on which
an evaluate with impossible-travel metrics hard-blocks. -/
def c5Ops : List Op := [Op.mouse c5MousePayload 0]

/-- A store is ready to replay an evaluate: the eval id is marked in the
dedup set and the response is cached under the session key. -/
def EvalReady {D Q V : Type} (σ : Store D Q V) (eid sid : String)
    (r : EvaluateResponse) : Prop :=
  σ.is_eval_processed eid = true ∧ σ.get_cached_eval_response sid = some r

/-- An operation that is not an evaluate on the given session: keyboard
and mouse stream writes on any session, and evaluates on other
sessions. -/
def OtherOp (sid : String) : Op → Prop
  | .keyboard _ _ => True
  | .mouse _ _ => True
  | .evaluate q _ => q.session_id ≠ sid

instance (sid : String) (op : Op) : Decidable (OtherOp sid op) :=
  match op with
  | .keyboard _ _ => isTrue True.intro
  | .mouse _ _ => isTrue True.intro
  | .evaluate q _ => inferInstanceAs (Decidable (q.session_id ≠ sid))

/-- Keyboard stream write on session "s" interleaved between the two "X"
evaluate calls of the idempotency scenario. -/
def c4KbPayload : KeyboardStreamPayload :=
  { session_id := "s", user_id := "u", batch_id := 1, events := [] }

/-- Mouse stream write creating the unrelated session "t". -/
def c4MouseT : MouseStreamPayload :=
  { session_id := "t", user_id := "v", batch_id := 1, events := [] }

/-- Evaluate call on the unrelated session "t". -/
def c4PayloadT : EvaluatePayload :=
  { session_id := "t", eval_id := "Z", user_id := "v" }

/-- Interleaved operations for the idempotency scenario: a keyboard write
on the session itself, and a mouse write plus an evaluate on another
session — everything the amended claim allows between the two calls. -/
def c4OtherOps : List Op :=
  [Op.keyboard c4KbPayload 5, Op.mouse c4MouseT 6, Op.evaluate c4PayloadT 7]

end Sentinel

namespace Sentinel

/-- C6: a metrics dictionary with `geo_velocity_mph > 500` makes
`NavigatorPolicyEngine.evaluate` return decision BLOCK, an anomaly-vector
list containing `impossible_travel`, and risk score exactly 1, whatever
the other metrics are. -/
theorem navigator_impossible_travel_blocks (m : NavMetrics)
    (h : m.geo_velocity_mph > 500) :
    (navigatorEvaluate m).decision = .BLOCK ∧
    "impossible_travel" ∈ (navigatorEvaluate m).anomaly_vectors ∧
    (navigatorEvaluate m).risk_score = 1 := by
  have h500 : (0:ℚ) < 500 := by norm_num
  have hmin : min (m.geo_velocity_mph / 500) 1 = 1 :=
    min_eq_right ((one_lt_div h500).mpr h).le
  have hraw : (1:ℚ) ≤ max (max (max (max (min (m.geo_velocity_mph / 500) 1)
      m.device_ip_mismatch) m.policy_violation) (m.is_new_device * (1/2))) 0 := by
    rw [hmin]
    exact le_trans (le_trans (le_trans (le_max_left _ _) (le_max_left _ _))
      (le_max_left _ _)) (le_max_left _ _)
  have hscore : navRiskScore m = 1 := by
    unfold navRiskScore
    rw [min_eq_right hraw]
  have hmem : "impossible_travel" ∈ navAnomalyVectors m := by
    unfold navAnomalyVectors
    rw [if_pos h]
    simp
  unfold navigatorEvaluate
  rw [hscore, if_pos (by norm_num : (1:ℚ) ≥ 0.85)]
  exact ⟨rfl, hmem, rfl⟩

/-- Concrete instance of `navigator_impossible_travel_blocks` at
velocity 1000 mph. -/
theorem navigator_impossible_travel_blocks_witness :
    impossibleTravelMetrics.geo_velocity_mph > 500 ∧
    (navigatorEvaluate impossibleTravelMetrics).decision = .BLOCK ∧
    "impossible_travel" ∈ (navigatorEvaluate impossibleTravelMetrics).anomaly_vectors ∧
    (navigatorEvaluate impossibleTravelMetrics).risk_score = 1 :=
  ⟨by norm_num [impossibleTravelMetrics],
   navigator_impossible_travel_blocks impossibleTravelMetrics
     (by norm_num [impossibleTravelMetrics])⟩

/-- C7: a feature vector with `velocity_max > 9` makes
`PhysicsMouseModel.score_one` return risk exactly 1 and the anomaly list
containing `teleport_speed`, whatever the other features are. -/
theorem physics_teleport_speed_hard_fail (f : MouseFeatures)
    (h : f.velocity_max > 9) :
    (physicsScoreOne f).1 = 1 ∧ "teleport_speed" ∈ (physicsScoreOne f).2 := by
  unfold physicsScoreOne
  rw [if_pos h]
  exact ⟨rfl, by simp⟩

/-- Concrete instance of `physics_teleport_speed_hard_fail` at
velocity_max 15. -/
theorem physics_teleport_speed_hard_fail_witness :
    teleportFeatures.velocity_max > 9 ∧
    (physicsScoreOne teleportFeatures).1 = 1 ∧
    "teleport_speed" ∈ (physicsScoreOne teleportFeatures).2 :=
  ⟨by norm_num [teleportFeatures],
   physics_teleport_speed_hard_fail teleportFeatures
     (by norm_num [teleportFeatures])⟩

/-- C10: for every feature vector, `PhysicsMouseModel.score_one` returns
risk exactly 0 or exactly 1, and whenever it returns 0 the anomaly-vector
list is empty (Tier-2 flags accumulated below the 0.7 threshold are
discarded and never reported). -/
theorem physics_risk_binary_and_silent_below_threshold (f : MouseFeatures) :
    ((physicsScoreOne f).1 = 0 ∨ (physicsScoreOne f).1 = 1) ∧
    ((physicsScoreOne f).1 = 0 → (physicsScoreOne f).2 = []) := by
  unfold physicsScoreOne
  split_ifs <;> norm_num

/-- Concrete instance of `physics_risk_binary_and_silent_below_threshold`
at a feature vector that trips two Tier-2 flags (accumulated risk 0.5,
below the 0.7 threshold): the result is risk 0 with an empty list. -/
theorem physics_risk_binary_witness :
    ((physicsScoreOne tier2PartialFeatures).1 = 0 ∨
     (physicsScoreOne tier2PartialFeatures).1 = 1) ∧
    ((physicsScoreOne tier2PartialFeatures).1 = 0 →
     (physicsScoreOne tier2PartialFeatures).2 = []) :=
  physics_risk_binary_and_silent_below_threshold tier2PartialFeatures

/-- C8: a `KeyboardAnomalyModel` that has learned fewer than 70 samples
(50 HST cold-start windows plus 20 minimum percentile samples) returns,
from `score_one`, exactly the raw HalfSpaceTrees score of the scaled
features — no percentile calibration is applied. -/
theorem keyboard_cold_start_uses_raw_score {D Q V : Type}
    (R : RiverOps D Q V) (M : MathOps) (m : KeyboardAnomalyModel D Q V)
    (f : Features) (h : m.learnCount < 70) :
    (KeyboardAnomalyModel.score_one R M m f).2.1 =
      R.hstScore m.detector (transform_one f) := by
  unfold KeyboardAnomalyModel.score_one KeyboardAnomalyModel.compute_percentile_risk
  simp only []
  rw [if_pos (show m.learnCount < 50 + 20 from h)]

/-- Concrete instance of `keyboard_cold_start_uses_raw_score`: a fresh
model (0 learned samples) with the constant detector returns the raw
score 1/4. -/
theorem keyboard_cold_start_uses_raw_score_witness :
    (KeyboardAnomalyModel.new constRiverOps).learnCount < 70 ∧
    (KeyboardAnomalyModel.score_one constRiverOps zeroMathOps
        (KeyboardAnomalyModel.new constRiverOps) sampleKeyFeatures).2.1 =
      constRiverOps.hstScore (KeyboardAnomalyModel.new constRiverOps).detector
        (transform_one sampleKeyFeatures) :=
  ⟨by decide,
   keyboard_cold_start_uses_raw_score constRiverOps zeroMathOps
     (KeyboardAnomalyModel.new constRiverOps) sampleKeyFeatures (by decide)⟩

theorem pairStep_keystroke_count (s : KeyProcState) (e : KeyboardEvent) :
    (pairStep s e).keystroke_count =
      s.keystroke_count + (if e.event_type = .DOWN then 1 else 0) := by
  cases he : e.event_type
  · simp [pairStep, he]
  · simp only [pairStep, he]
    cases pendingLookup s.pending_downs e.key <;> simp

theorem process_event_fst (M : MathOps) (s : KeyProcState) (e : KeyboardEvent) :
    (process_event M s e).1 = pairStep s e := by
  simp only [process_event]
  split_ifs <;> rfl

theorem process_event_isSome (M : MathOps) (s : KeyProcState) (e : KeyboardEvent) :
    (process_event M s e).2.isSome = true ↔
      (e.event_type = .DOWN ∧
        (WINDOW_SIZE ≤ (pairStep s e).keystroke_count ∧
          ((pairStep s e).keystroke_count = WINDOW_SIZE ∨
           ((pairStep s e).keystroke_count - WINDOW_SIZE) % WINDOW_STRIDE = 0))) := by
  simp only [process_event]
  split_ifs with h1 h2
  · simp only [Option.isSome_none, Bool.false_eq_true, false_iff]
    rintro ⟨-, h50, -⟩
    exact absurd h1 (not_lt_of_le h50)
  · simp only [Option.isSome_some, true_iff]
    exact ⟨h2.2, le_of_not_lt h1, h2.1⟩
  · simp only [Option.isSome_none, Bool.false_eq_true, false_iff]
    rintro ⟨hdown, -, hcond⟩
    exact h2 ⟨hcond, hdown⟩

theorem runFrom_cons (M : MathOps) (s : KeyProcState) (e : KeyboardEvent)
    (rest : List KeyboardEvent) :
    runFrom M s (e :: rest) =
      (process_event M s e).2 :: runFrom M (process_event M s e).1 rest := rfl

theorem runFrom_length (M : MathOps) (l : List KeyboardEvent) (s : KeyProcState) :
    (runFrom M s l).length = l.length := by
  induction l generalizing s with
  | nil => rfl
  | cons e rest ih => rw [runFrom_cons, List.length_cons, ih]; rfl

theorem downCount_nil : downCount [] = 0 := rfl

theorem downCount_cons (e : KeyboardEvent) (l : List KeyboardEvent) :
    downCount (e :: l) = (if e.event_type = .DOWN then 1 else 0) + downCount l := by
  unfold downCount
  by_cases he : e.event_type = .DOWN <;> simp [he, List.filter_cons]
  omega

theorem runFrom_isSome_iff (M : MathOps) (l : List KeyboardEvent)
    (s : KeyProcState) (i : ℕ) (h : i < l.length) :
    ((runFrom M s l).getD i none).isSome = true ↔
      ((l.get ⟨i, h⟩).event_type = .DOWN ∧
        (s.keystroke_count + downCount (l.take (i + 1)) = 50 ∨
         (50 < s.keystroke_count + downCount (l.take (i + 1)) ∧
          (s.keystroke_count + downCount (l.take (i + 1)) - 50) % 5 = 0))) := by
  induction l generalizing s i with
  | nil => exact absurd h (Nat.not_lt_zero i)
  | cons e rest ih =>
      cases i with
      | zero =>
          rw [runFrom_cons, List.getD_cons_zero, process_event_isSome M s e,
            pairStep_keystroke_count]
          simp only [List.take_succ_cons, List.take_zero, downCount_cons,
            downCount_nil, List.get, WINDOW_SIZE, WINDOW_STRIDE]
          by_cases he : e.event_type = .DOWN
          · simp only [he, if_pos rfl, true_and]
            omega
          · simp only [he, false_and]
      | succ i' =>
          rw [runFrom_cons, List.getD_cons_succ]
          have h' : i' < rest.length := Nat.lt_of_succ_lt_succ h
          rw [ih (process_event M s e).1 i' h']
          have hcount : (process_event M s e).1.keystroke_count =
              s.keystroke_count + (if e.event_type = .DOWN then 1 else 0) := by
            rw [process_event_fst, pairStep_keystroke_count]
          have harith : (process_event M s e).1.keystroke_count +
              downCount (rest.take (i' + 1)) =
              s.keystroke_count + downCount ((e :: rest).take (i' + 1 + 1)) := by
            rw [hcount, List.take_succ_cons, downCount_cons]
            omega
          rw [harith]
          rfl

/-- C9: feeding any event sequence one at a time into a fresh
`KeyboardProcessor`, `process_event` returns a non-None feature vector
exactly on DOWN events — the first time when the cumulative DOWN count
reaches 50, and thereafter on every DOWN event whose cumulative count
exceeds 50 by a multiple of 5.  Every other event (in particular every
UP event) returns None. -/
theorem keyboard_window_emission (M : MathOps) (events : List KeyboardEvent)
    (i : ℕ) (h : i < events.length) :
    ((runProcessor M events).getD i none).isSome = true ↔
      ((events.get ⟨i, h⟩).event_type = .DOWN ∧
        (downCount (events.take (i + 1)) = 50 ∨
         (50 < downCount (events.take (i + 1)) ∧
          (downCount (events.take (i + 1)) - 50) % 5 = 0))) := by
  have := runFrom_isSome_iff M events KeyProcState.init i h
  simpa [KeyProcState.init, WINDOW_SIZE, WINDOW_STRIDE] using this

/-- Concrete instance of `keyboard_window_emission`: in a burst of 55
DOWN events the 50th event (index 49) emits a window. -/
theorem keyboard_window_emission_witness :
    49 < (downBurst 55).length ∧
    ((runProcessor zeroMathOps (downBurst 55)).getD 49 none).isSome = true :=
  ⟨by decide,
   (keyboard_window_emission zeroMathOps (downBurst 55) 49 (by decide)).mpr
     (by decide)⟩

set_option maxRecDepth 200000 in
unseal Rat.add Rat.mul Rat.inv Rat.sub Rat.ofScientific in
/-- C1: an evaluate that reaches the HST-learning branch (decision ALLOW,
NORMAL mode, learning not suspended, one completed window) trains the
per-user HST model — the stored row gains the window count — but then
aborts on the missing `SessionRepository._save_keyboard_state` method:
no response is returned (HTTP 500), and the persisted keyboard state
keeps its completed window and last score instead of being cleared. -/
theorem hst_learning_aborts_on_missing_save :
    c1Run.2 = none ∧
    (c1Run.1.models .HST "u").map StoredModel.feature_window_count = some 1 ∧
    c1Run.1.keyboards "s" =
      some { completed_windows := [oneWindow], last_score := 1/5 } ∧
    (c1Run.1.sessions "s").map SessionState.last_decision = some none := by
  refine ⟨by decide, by decide, by decide, by decide⟩

set_option maxRecDepth 200000 in
unseal Rat.add Rat.mul Rat.inv Rat.sub Rat.ofScientific in
/-- C2: the keyboard stream write with a batch gap of 11 is accepted and
resets the keyboard state, but the persisted strikes value stays 1 — the
in-memory `strikes += 0.5` is dropped because the commit closure copies
only the batch id, the activity timestamp and the window counters.  The
claim requires the stored strikes to become 1.5. -/
theorem gap_strike_increment_not_persisted :
    c2Run.2 = .accepted ∧
    (c2Run.1.sessions "s").map SessionState.strikes = some 1 ∧
    ¬ (c2Run.1.sessions "s").map SessionState.strikes = some (3/2) ∧
    c2Run.1.keyboards "s" = some ({} : KeyboardState) ∧
    (c2Run.1.sessions "s").map SessionState.last_keyboard_batch_id = some 12 := by
  refine ⟨by decide, by decide, by decide, by decide, by decide⟩

set_option maxRecDepth 200000 in
unseal Rat.add Rat.mul Rat.inv Rat.sub Rat.ofScientific in
/-- Counterexample to C3 as stated: finalizing a BLOCK decision on a
NORMAL-mode session leaves the session in NORMAL mode with
`challenge_entered_ts` untouched — `_update_mode` transitions only on a
CHALLENGE decision, not on every non-ALLOW decision. -/
theorem block_in_normal_mode_stays_normal :
    (c3BlockRun.1.sessions "s").map SessionState.mode = some "NORMAL" ∧
    (c3BlockRun.1.sessions "s").map SessionState.challenge_entered_ts = some 0 ∧
    c3BlockRun.2 = some { decision := .BLOCK, risk := 1, mode := "NORMAL" } := by
  refine ⟨by decide, by decide, by decide⟩

theorem update_trust_mode (s : SessionState) (a b : ℚ) :
    (update_trust s a b).mode = s.mode := by
  unfold update_trust
  split_ifs <;> rfl

theorem update_trust_challenge_entered_ts (s : SessionState) (a b : ℚ) :
    (update_trust s a b).challenge_entered_ts = s.challenge_entered_ts := by
  unfold update_trust
  split_ifs <;> rfl

theorem update_trust_consecutive_allows (s : SessionState) (a b : ℚ) :
    (update_trust s a b).consecutive_allows = s.consecutive_allows := by
  unfold update_trust
  split_ifs <;> rfl

theorem update_mode_normal_challenge (s : SessionState) (ha : ℕ) (ht now : ℚ)
    (h : s.mode = "NORMAL") :
    update_mode s .CHALLENGE ha ht now =
      { s with mode := "CHALLENGE", challenge_entered_ts := now,
               consecutive_allows := 0 } := by
  unfold update_mode
  rw [if_pos ⟨rfl, h⟩]

theorem auditSession_mode (s : SessionState) (p : EvaluatePayload)
    (d : SentinelDecision) (r now : ℚ) :
    (auditSession s p d r now).mode = s.mode := by
  unfold auditSession
  split_ifs <;> rfl

theorem auditSession_challenge_entered_ts (s : SessionState)
    (p : EvaluatePayload) (d : SentinelDecision) (r now : ℚ) :
    (auditSession s p d r now).challenge_entered_ts = s.challenge_entered_ts := by
  unfold auditSession
  split_ifs <;> rfl

theorem auditSession_consecutive_allows (s : SessionState)
    (p : EvaluatePayload) (d : SentinelDecision) (r now : ℚ) :
    (auditSession s p d r now).consecutive_allows = s.consecutive_allows := by
  unfold auditSession
  split_ifs <;> rfl

theorem auditSession_trust_score (s : SessionState) (p : EvaluatePayload)
    (d : SentinelDecision) (r now : ℚ) :
    (auditSession s p d r now).trust_score = s.trust_score := by
  unfold auditSession
  split_ifs <;> rfl

theorem auditSession_last_decision (s : SessionState) (p : EvaluatePayload)
    (d : SentinelDecision) (r now : ℚ) :
    (auditSession s p d r now).last_decision = some d := by
  unfold auditSession
  split_ifs <;> rfl

theorem auditSession_last_risk (s : SessionState) (p : EvaluatePayload)
    (d : SentinelDecision) (r now : ℚ) :
    (auditSession s p d r now).last_risk = some r := by
  unfold auditSession
  split_ifs <;> rfl

theorem learn_with_retry_sessions {D Q V : Type} (σ : Store D Q V)
    (u : String) (t : ModelType)
    (f : KeyboardAnomalyModel D Q V → KeyboardAnomalyModel D Q V)
    (n : KeyboardAnomalyModel D Q V) (i : ℕ) :
    (σ.learn_with_retry u t f n i).sessions = σ.sessions := rfl

theorem save_trusted_context_sessions {D Q V : Type} (σ : Store D Q V)
    (u d ip : String) :
    (σ.save_trusted_context u d ip).sessions = σ.sessions := rfl

theorem mark_eval_processed_sessions {D Q V : Type} (σ : Store D Q V)
    (e : String) :
    (σ.mark_eval_processed e).sessions = σ.sessions := by
  unfold Store.mark_eval_processed
  split_ifs <;> rfl

/-- The non-aborting tail of finalize writes exactly the audited session
under the payload's session key. -/
theorem finalizeStore_sessions {D Q V : Type} (R : RiverOps D Q V)
    (σ : Store D Q V) (p : EvaluatePayload) (s : SessionState)
    (d : SentinelDecision) (risk : ℚ) (kb : KeyboardState) (nav now : ℚ) :
    (finalizeStore R σ p s d risk kb nav now).sessions =
      setKey σ.sessions p.session_id (auditSession s p d risk now) := by
  unfold finalizeStore
  cases p.device_id <;>
    simp only [] <;>
    split_ifs <;>
    simp [mark_eval_processed_sessions, learn_with_retry_sessions,
      save_trusted_context_sessions, Store.update_session_atomic]

/-- C3 amended: an evaluate finalization on a NORMAL-mode session with a
CHALLENGE decision transitions the persisted session to CHALLENGE mode,
records `challenge_entered_ts = now`, and resets `consecutive_allows`
(the transition fires on CHALLENGE only; a BLOCK decision leaves the mode
unchanged, as `block_in_normal_mode_stays_normal` shows). -/
theorem normal_mode_challenge_decision_transitions {D Q V : Type}
    (R : RiverOps D Q V) (σ : Store D Q V) (payload : EvaluatePayload)
    (session : SessionState) (risk : ℚ) (kb : KeyboardState)
    (nav idr : ℚ) (ha : ℕ) (ht now : ℚ)
    (hmode : session.mode = "NORMAL") :
    ((finalize_evaluate R σ payload session .CHALLENGE risk kb nav idr ha ht
        now).1.sessions payload.session_id).map SessionState.mode =
      some "CHALLENGE" ∧
    ((finalize_evaluate R σ payload session .CHALLENGE risk kb nav idr ha ht
        now).1.sessions payload.session_id).map
        SessionState.challenge_entered_ts = some now ∧
    ((finalize_evaluate R σ payload session .CHALLENGE risk kb nav idr ha ht
        now).1.sessions payload.session_id).map
        SessionState.consecutive_allows = some 0 := by
  have hstrikes_mode : (update_strikes session .CHALLENGE).mode = "NORMAL" := hmode
  have hpre_mode : (preFinalSession session .CHALLENGE risk idr ha ht now).mode =
      "CHALLENGE" := by
    unfold preFinalSession
    rw [update_mode_normal_challenge _ _ _ _ hstrikes_mode, update_trust_mode]
  have hpre_ts : (preFinalSession session .CHALLENGE risk idr ha ht
      now).challenge_entered_ts = now := by
    unfold preFinalSession
    rw [update_mode_normal_challenge _ _ _ _ hstrikes_mode,
      update_trust_challenge_entered_ts]
  have hpre_allows : (preFinalSession session .CHALLENGE risk idr ha ht
      now).consecutive_allows = 0 := by
    unfold preFinalSession
    rw [update_mode_normal_challenge _ _ _ _ hstrikes_mode,
      update_trust_consecutive_allows]
  have hfst : (finalize_evaluate R σ payload session .CHALLENGE risk kb nav idr
      ha ht now).1 = finalizeStore R σ payload
      (preFinalSession session .CHALLENGE risk idr ha ht now) .CHALLENGE risk kb
      nav now := by
    unfold finalize_evaluate
    rw [if_neg (by simp)]
  rw [hfst, finalizeStore_sessions]
  simp [setKey, auditSession_mode, auditSession_challenge_entered_ts,
    auditSession_consecutive_allows, hpre_mode, hpre_ts, hpre_allows]

/-- Concrete instance of `normal_mode_challenge_decision_transitions` on a
fresh NORMAL session at time 7. -/
theorem normal_mode_challenge_decision_transitions_witness :
    ({} : SessionState).mode = "NORMAL" ∧
    (((finalize_evaluate constRiverOps c3Store c3Payload {} .CHALLENGE (1/4)
        ({} : KeyboardState) 0 0 5 20 7).1.sessions "s").map
        SessionState.mode = some "CHALLENGE" ∧
     ((finalize_evaluate constRiverOps c3Store c3Payload {} .CHALLENGE (1/4)
        ({} : KeyboardState) 0 0 5 20 7).1.sessions "s").map
        SessionState.challenge_entered_ts = some 7 ∧
     ((finalize_evaluate constRiverOps c3Store c3Payload {} .CHALLENGE (1/4)
        ({} : KeyboardState) 0 0 5 20 7).1.sessions "s").map
        SessionState.consecutive_allows = some 0) :=
  ⟨rfl,
   normal_mode_challenge_decision_transitions constRiverOps c3Store c3Payload
     {} (1/4) ({} : KeyboardState) 0 0 5 20 7 rfl⟩

theorem learn_with_retry_dedup {D Q V : Type} (σ : Store D Q V) (u : String)
    (t : ModelType)
    (f : KeyboardAnomalyModel D Q V → KeyboardAnomalyModel D Q V)
    (n : KeyboardAnomalyModel D Q V) (i : ℕ) :
    (σ.learn_with_retry u t f n i).dedup = σ.dedup := rfl

theorem save_trusted_context_dedup {D Q V : Type} (σ : Store D Q V)
    (u d ip : String) :
    (σ.save_trusted_context u d ip).dedup = σ.dedup := rfl

/-- The non-aborting tail of finalize marks the eval id as processed. -/
theorem finalizeStore_is_eval_processed {D Q V : Type} (R : RiverOps D Q V)
    (σ : Store D Q V) (p : EvaluatePayload) (s : SessionState)
    (d : SentinelDecision) (risk : ℚ) (kb : KeyboardState) (nav now : ℚ)
    (he : p.eval_id ≠ "") :
    (finalizeStore R σ p s d risk kb nav now).is_eval_processed p.eval_id =
      true := by
  unfold finalizeStore
  cases p.device_id <;>
    simp only [] <;>
    split_ifs <;>
    simp [Store.is_eval_processed, Store.mark_eval_processed, he,
      Store.update_session_atomic]

/-- The non-aborting tail of finalize caches exactly the response it
returns: the audited session's decision, risk and mode. -/
theorem finalizeStore_cached {D Q V : Type} (R : RiverOps D Q V)
    (σ : Store D Q V) (p : EvaluatePayload) (s : SessionState)
    (d : SentinelDecision) (risk : ℚ) (kb : KeyboardState) (nav now : ℚ) :
    (finalizeStore R σ p s d risk kb nav now).get_cached_eval_response
        p.session_id =
      some { decision := d, risk := risk,
             mode := (auditSession s p d risk now).mode } := by
  unfold Store.get_cached_eval_response
  rw [finalizeStore_sessions]
  simp [setKey, auditSession_last_decision, auditSession_last_risk]

/-- A finalize that returns a response leaves the dedup marker set and
the returned response cached under the session key. -/
theorem finalize_evaluate_ok {D Q V : Type} {R : RiverOps D Q V}
    {σ : Store D Q V} {p : EvaluatePayload} {sess : SessionState}
    {d : SentinelDecision} {risk : ℚ} {kb : KeyboardState}
    {nav idr : ℚ} {ha : ℕ} {ht now : ℚ} {σ1 : Store D Q V}
    {r : EvaluateResponse} (he : p.eval_id ≠ "")
    (h : finalize_evaluate R σ p sess d risk kb nav idr ha ht now =
      (σ1, some r)) :
    σ1.is_eval_processed p.eval_id = true ∧
    σ1.get_cached_eval_response p.session_id = some r := by
  unfold finalize_evaluate at h
  simp only [] at h
  split_ifs at h
  · rw [Prod.mk.injEq] at h
    exact absurd h.2 (by simp)
  · rw [Prod.mk.injEq] at h
    obtain ⟨h1, h2⟩ := h
    rw [Option.some.injEq] at h2
    subst h1
    subst h2
    exact ⟨finalizeStore_is_eval_processed R σ p _ d risk kb nav now he,
      finalizeStore_cached R σ p _ d risk kb nav now⟩

set_option maxHeartbeats 2000000 in
/-- Every branch of the hard-block cascade and of the fusion tail ends in
a finalize, so a returned response is marked processed and cached. -/
theorem decideAndFinalize_ok {D Q V : Type} {R : RiverOps D Q V} {M : MathOps}
    {σ : Store D Q V} {p : EvaluatePayload} {s4 : SessionState}
    {kb : KeyboardState} {mr kr nr : ℚ} {nd : SentinelDecision} {ir ic now : ℚ}
    {σ1 : Store D Q V} {r : EvaluateResponse} (he : p.eval_id ≠ "")
    (h : decideAndFinalize R M σ p s4 kb mr kr nr nd ir ic now = (σ1, some r)) :
    σ1.is_eval_processed p.eval_id = true ∧
    σ1.get_cached_eval_response p.session_id = some r := by
  unfold decideAndFinalize at h
  simp only [] at h
  split_ifs at h <;> exact finalize_evaluate_ok he h

/-- The evaluate pipeline past the idempotency check either returns the
defensive CHALLENGE without touching the store (no session) or finalizes:
the dedup marker is set and the response is cached. -/
theorem evaluate_uncached_ok {D Q V : Type} {R : RiverOps D Q V} {M : MathOps}
    {navOf : EvaluatePayload → NavMetrics} {σ : Store D Q V}
    {p : EvaluatePayload} {now : ℚ} {σ1 : Store D Q V} {r : EvaluateResponse}
    (he : p.eval_id ≠ "")
    (h : evaluate_uncached R M navOf σ p now = (σ1, some r)) :
    (σ.sessions p.session_id = none ∧ σ1 = σ ∧
      r = { decision := .CHALLENGE, risk := 0.5, mode := "NORMAL" }) ∨
    (σ1.is_eval_processed p.eval_id = true ∧
      σ1.get_cached_eval_response p.session_id = some r) := by
  unfold evaluate_uncached at h
  cases hs : σ.sessions p.session_id with
  | none =>
      rw [hs] at h
      rw [Prod.mk.injEq] at h
      obtain ⟨h1, h2⟩ := h
      rw [Option.some.injEq] at h2
      exact Or.inl ⟨rfl, h1.symm, h2.symm⟩
  | some s0 =>
      rw [hs] at h
      simp only [] at h
      exact Or.inr (decideAndFinalize_ok he h)

theorem update_keyboard_stream_atomic_sessions {D Q V : Type}
    (σ : Store D Q V) (sid : String) (f : SessionState → SessionState)
    (kb : KeyboardState) (now : ℚ) :
    (σ.update_keyboard_stream_atomic sid f kb now).sessions =
      setKey σ.sessions sid (f ((σ.sessions sid).getD (SessionState.new now))) :=
  rfl

theorem update_mouse_stream_atomic_sessions {D Q V : Type}
    (σ : Store D Q V) (sid : String) (f : SessionState → SessionState)
    (ms : MouseState) (now : ℚ) :
    (σ.update_mouse_stream_atomic sid f ms now).sessions =
      setKey σ.sessions sid (f ((σ.sessions sid).getD (SessionState.new now))) :=
  rfl

theorem is_eval_processed_true_iff {D Q V : Type} (σ : Store D Q V)
    (e : String) :
    σ.is_eval_processed e = true ↔ e ≠ "" ∧ σ.dedup e = true := by
  unfold Store.is_eval_processed
  split_ifs with h
  · simp [h]
  · simp [h]

/-- A cached response is reconstructed from the stored session: its
decision, risk and mode are the session's audit fields. -/
theorem get_cached_some_elim {D Q V : Type} (σ : Store D Q V) (sid : String)
    (r : EvaluateResponse) (h : σ.get_cached_eval_response sid = some r) :
    ∃ s, σ.sessions sid = some s ∧ s.last_decision = some r.decision ∧
      s.last_risk.getD 0 = r.risk ∧ s.mode = r.mode := by
  unfold Store.get_cached_eval_response at h
  split at h
  · exact absurd h (by simp)
  · rename_i s hs
    split at h
    · exact absurd h (by simp)
    · rename_i d hd
      rw [Option.some.injEq] at h
      subst h
      exact ⟨s, hs, hd, rfl, rfl⟩

/-- A session whose audit fields spell out the response caches it. -/
theorem get_cached_some_intro {D Q V : Type} (σ : Store D Q V) (sid : String)
    (r : EvaluateResponse) (s : SessionState)
    (hs : σ.sessions sid = some s) (hd : s.last_decision = some r.decision)
    (hr : s.last_risk.getD 0 = r.risk) (hm : s.mode = r.mode) :
    σ.get_cached_eval_response sid = some r := by
  unfold Store.get_cached_eval_response
  split
  · rename_i heq
    rw [hs] at heq
    exact absurd heq (by simp)
  · rename_i s2 hs2
    rw [hs] at hs2
    rw [Option.some.injEq] at hs2
    subst hs2
    split
    · rename_i hd2
      rw [hd] at hd2
      exact absurd hd2 (by simp)
    · rename_i d hd2
      rw [hd] at hd2
      rw [Option.some.injEq] at hd2
      subst hd2
      rw [hr, hm]

/-- Replay readiness transfers to any store with the same dedup bit and
the same session record. -/
theorem EvalReady_transfer {D Q V : Type} (σ σ2 : Store D Q V)
    (e sid : String) (r : EvaluateResponse)
    (hde : σ2.dedup e = σ.dedup e) (hse : σ2.sessions sid = σ.sessions sid)
    (h : EvalReady σ e sid r) : EvalReady σ2 e sid r := by
  obtain ⟨h1, h2⟩ := h
  rw [is_eval_processed_true_iff] at h1
  constructor
  · rw [is_eval_processed_true_iff]
    exact ⟨h1.1, by rw [hde]; exact h1.2⟩
  · obtain ⟨s, hss, hld, hrr, hmm⟩ := get_cached_some_elim σ sid r h2
    exact get_cached_some_intro σ2 sid r s (by rw [hse]; exact hss) hld hrr hmm

theorem EvalReady_learn {D Q V : Type} {σ : Store D Q V} {u : String}
    {t : ModelType}
    {f : KeyboardAnomalyModel D Q V → KeyboardAnomalyModel D Q V}
    {n : KeyboardAnomalyModel D Q V} {i : ℕ} {e sid : String}
    {r : EvaluateResponse} (h : EvalReady σ e sid r) :
    EvalReady (σ.learn_with_retry u t f n i) e sid r :=
  EvalReady_transfer σ _ e sid r rfl rfl h

theorem EvalReady_save {D Q V : Type} {σ : Store D Q V} {u d ip : String}
    {e sid : String} {r : EvaluateResponse} (h : EvalReady σ e sid r) :
    EvalReady (σ.save_trusted_context u d ip) e sid r :=
  EvalReady_transfer σ _ e sid r rfl rfl h

/-- Marking any eval id keeps an already-true dedup bit true. -/
theorem mark_dedup_true {D Q V : Type} (σ : Store D Q V) (eid e : String)
    (h : σ.dedup e = true) : (σ.mark_eval_processed eid).dedup e = true := by
  unfold Store.mark_eval_processed
  split_ifs with hq
  · exact h
  · show (if e = eid then true else σ.dedup e) = true
    split_ifs with h2
    · rfl
    · exact h

/-- The finalize tail keeps an already-true dedup bit true: every write
before the dedup marker leaves the dedup set untouched, and the marker
only ever sets bits. -/
theorem finalizeStore_dedup_true {D Q V : Type} (R : RiverOps D Q V)
    (σ : Store D Q V) (q : EvaluatePayload) (s : SessionState)
    (d : SentinelDecision) (risk : ℚ) (kb : KeyboardState) (nav now : ℚ)
    (e : String) (h : σ.dedup e = true) :
    (finalizeStore R σ q s d risk kb nav now).dedup e = true := by
  unfold finalizeStore
  cases q.device_id <;>
    simp only [] <;>
    split_ifs <;>
    exact mark_dedup_true _ _ e h

/-- The keyboard-stream atomic commit keeps replay readiness when its
session closure preserves the audit fields (mode, decision, risk). -/
theorem EvalReady_update_keyboard {D Q V : Type} (σ : Store D Q V)
    (sid' : String) (f : SessionState → SessionState) (kb : KeyboardState)
    (now : ℚ) {e sid : String} {r : EvaluateResponse}
    (h : EvalReady σ e sid r)
    (hm : ∀ t, (f t).mode = t.mode)
    (hd : ∀ t, (f t).last_decision = t.last_decision)
    (hr : ∀ t, (f t).last_risk = t.last_risk) :
    EvalReady (σ.update_keyboard_stream_atomic sid' f kb now) e sid r := by
  obtain ⟨h1, h2⟩ := h
  obtain ⟨s, hss, hld, hrr, hmm⟩ := get_cached_some_elim σ sid r h2
  constructor
  · rw [is_eval_processed_true_iff] at h1 ⊢
    exact h1
  · by_cases hq : sid = sid'
    · subst hq
      refine get_cached_some_intro _ sid r (f s) ?_ ?_ ?_ ?_
      · rw [update_keyboard_stream_atomic_sessions]
        unfold setKey
        rw [if_pos rfl, hss]
        rfl
      · rw [hd]
        exact hld
      · rw [hr]
        exact hrr
      · rw [hm]
        exact hmm
    · refine get_cached_some_intro _ sid r s ?_ hld hrr hmm
      rw [update_keyboard_stream_atomic_sessions]
      unfold setKey
      rw [if_neg hq]
      exact hss

/-- The mouse-stream atomic commit keeps replay readiness when its
session closure preserves the audit fields. -/
theorem EvalReady_update_mouse {D Q V : Type} (σ : Store D Q V)
    (sid' : String) (f : SessionState → SessionState) (ms : MouseState)
    (now : ℚ) {e sid : String} {r : EvaluateResponse}
    (h : EvalReady σ e sid r)
    (hm : ∀ t, (f t).mode = t.mode)
    (hd : ∀ t, (f t).last_decision = t.last_decision)
    (hr : ∀ t, (f t).last_risk = t.last_risk) :
    EvalReady (σ.update_mouse_stream_atomic sid' f ms now) e sid r := by
  obtain ⟨h1, h2⟩ := h
  obtain ⟨s, hss, hld, hrr, hmm⟩ := get_cached_some_elim σ sid r h2
  constructor
  · rw [is_eval_processed_true_iff] at h1 ⊢
    exact h1
  · by_cases hq : sid = sid'
    · subst hq
      refine get_cached_some_intro _ sid r (f s) ?_ ?_ ?_ ?_
      · rw [update_mouse_stream_atomic_sessions]
        unfold setKey
        rw [if_pos rfl, hss]
        rfl
      · rw [hd]
        exact hld
      · rw [hr]
        exact hrr
      · rw [hm]
        exact hmm
    · refine get_cached_some_intro _ sid r s ?_ hld hrr hmm
      rw [update_mouse_stream_atomic_sessions]
      unfold setKey
      rw [if_neg hq]
      exact hss

/-- Session creation keeps replay readiness: the cached session already
exists, so only other keys can be created. -/
theorem EvalReady_get_or_create {D Q V : Type} (σ : Store D Q V)
    (sid' : String) (now : ℚ) {e sid : String} {r : EvaluateResponse}
    (h : EvalReady σ e sid r) :
    EvalReady (σ.get_or_create_session sid' now).1 e sid r := by
  unfold Store.get_or_create_session
  cases hs' : σ.sessions sid' with
  | some s => exact h
  | none =>
      refine EvalReady_transfer σ _ e sid r rfl ?_ h
      show setKey σ.sessions sid' (SessionState.new now) sid = σ.sessions sid
      unfold setKey
      by_cases hq : sid = sid'
      · subst hq
        obtain ⟨s, hss, _, _, _⟩ := get_cached_some_elim σ sid r h.2
        rw [hss] at hs'
        exact absurd hs' (by simp)
      · rw [if_neg hq]

/-- Projection of a stream-handler result pair for replay readiness. -/
theorem EvalReady_fst_stream {D Q V : Type} (σ : Store D Q V)
    (x : StreamResult) {e sid : String} {r : EvaluateResponse}
    (h : EvalReady σ e sid r) : EvalReady ((σ, x)).1 e sid r := h

/-- Projection of an evaluate result pair for replay readiness. -/
theorem EvalReady_fst_eval {D Q V : Type} (σ : Store D Q V)
    (x : Option EvaluateResponse) {e sid : String} {r : EvaluateResponse}
    (h : EvalReady σ e sid r) : EvalReady ((σ, x)).1 e sid r := h

set_option maxHeartbeats 4000000 in
/-- A keyboard stream write on any session keeps replay readiness: its
commit closure copies only batch id, activity timestamp and window
counters, never the audit fields or the dedup set. -/
theorem EvalReady_process_keyboard {D Q V : Type} (R : RiverOps D Q V)
    (M : MathOps) (σ : Store D Q V) (p : KeyboardStreamPayload) (now : ℚ)
    {e sid : String} {r : EvaluateResponse} (h : EvalReady σ e sid r) :
    EvalReady (process_keyboard_stream R M σ p now).1 e sid r := by
  have h0 : EvalReady (σ.get_or_create_session p.session_id now).1 e sid r :=
    EvalReady_get_or_create σ p.session_id now h
  unfold process_keyboard_stream
  simp only []
  split_ifs
  · exact h0
  · refine EvalReady_fst_stream _ _ ?_
    refine EvalReady_update_keyboard _ _ _ _ _ h0 ?_ ?_ ?_
    · intro t
      rfl
    · intro t
      rfl
    · intro t
      rfl
  · refine EvalReady_fst_stream _ _ ?_
    refine EvalReady_update_keyboard _ _ _ _ _ h0 ?_ ?_ ?_
    · intro t
      rfl
    · intro t
      rfl
    · intro t
      rfl

set_option maxHeartbeats 4000000 in
/-- A mouse stream write on any session keeps replay readiness. -/
theorem EvalReady_process_mouse {D Q V : Type} (M : MathOps)
    (σ : Store D Q V) (p : MouseStreamPayload) (now : ℚ)
    {e sid : String} {r : EvaluateResponse} (h : EvalReady σ e sid r) :
    EvalReady (process_mouse_stream M σ p now).1 e sid r := by
  have h0 : EvalReady (σ.get_or_create_session p.session_id now).1 e sid r :=
    EvalReady_get_or_create σ p.session_id now h
  unfold process_mouse_stream
  simp only []
  split_ifs
  · exact h0
  · refine EvalReady_fst_stream _ _ ?_
    refine EvalReady_update_mouse _ _ _ _ _ h0 ?_ ?_ ?_
    · intro t
      rfl
    · intro t
      rfl
    · intro t
      rfl
  · refine EvalReady_fst_stream _ _ ?_
    refine EvalReady_update_mouse _ _ _ _ _ h0 ?_ ?_ ?_
    · intro t
      rfl
    · intro t
      rfl
    · intro t
      rfl

/-- The finalize tail of an evaluate on another session keeps replay
readiness: it writes that session's record, the model store, the trusted
context, its own dedup marker and the ban set. -/
theorem EvalReady_finalizeStore {D Q V : Type} (R : RiverOps D Q V)
    (σ : Store D Q V) (q : EvaluatePayload) (s : SessionState)
    (d : SentinelDecision) (risk : ℚ) (kb : KeyboardState) (nav now : ℚ)
    {e sid : String} {r : EvaluateResponse}
    (hq : q.session_id ≠ sid) (h : EvalReady σ e sid r) :
    EvalReady (finalizeStore R σ q s d risk kb nav now) e sid r := by
  obtain ⟨h1, h2⟩ := h
  rw [is_eval_processed_true_iff] at h1
  constructor
  · rw [is_eval_processed_true_iff]
    exact ⟨h1.1, finalizeStore_dedup_true R σ q s d risk kb nav now e h1.2⟩
  · obtain ⟨s2, hss, hld, hrr, hmm⟩ := get_cached_some_elim σ sid r h2
    refine get_cached_some_intro _ sid r s2 ?_ hld hrr hmm
    rw [finalizeStore_sessions]
    unfold setKey
    rw [if_neg (fun hh => hq hh.symm)]
    exact hss

/-- A finalize of an evaluate on another session keeps replay readiness
on both the abort path and the commit path. -/
theorem EvalReady_finalize {D Q V : Type} (R : RiverOps D Q V)
    (σ : Store D Q V) (q : EvaluatePayload) (s : SessionState)
    (d : SentinelDecision) (risk : ℚ) (kb : KeyboardState)
    (nav idr : ℚ) (ha : ℕ) (ht now : ℚ) {e sid : String}
    {r : EvaluateResponse} (hq : q.session_id ≠ sid)
    (h : EvalReady σ e sid r) :
    EvalReady (finalize_evaluate R σ q s d risk kb nav idr ha ht now).1
      e sid r := by
  unfold finalize_evaluate
  simp only []
  split_ifs
  · refine EvalReady_fst_eval _ _ ?_
    exact EvalReady_learn h
  · refine EvalReady_fst_eval _ _ ?_
    exact EvalReady_finalizeStore R σ q _ d risk kb nav now hq h

set_option maxHeartbeats 8000000 in
/-- Every branch of the hard-block cascade and the fusion tail of an
evaluate on another session keeps replay readiness. -/
theorem EvalReady_decideAndFinalize {D Q V : Type} (R : RiverOps D Q V)
    (M : MathOps) (σ : Store D Q V) (q : EvaluatePayload)
    (s4 : SessionState) (kb : KeyboardState) (mr kr nr : ℚ)
    (nd : SentinelDecision) (ir ic now : ℚ) {e sid : String}
    {r : EvaluateResponse} (hq : q.session_id ≠ sid)
    (h : EvalReady σ e sid r) :
    EvalReady (decideAndFinalize R M σ q s4 kb mr kr nr nd ir ic now).1
      e sid r := by
  unfold decideAndFinalize
  simp only []
  split_ifs <;> exact EvalReady_finalize _ _ _ _ _ _ _ _ _ _ _ _ hq h

/-- The evaluate pipeline past the idempotency check, run for another
session, keeps replay readiness. -/
theorem EvalReady_evaluate_uncached {D Q V : Type} (R : RiverOps D Q V)
    (M : MathOps) (navOf : EvaluatePayload → NavMetrics) (σ : Store D Q V)
    (q : EvaluatePayload) (now : ℚ) {e sid : String} {r : EvaluateResponse}
    (hq : q.session_id ≠ sid) (h : EvalReady σ e sid r) :
    EvalReady (evaluate_uncached R M navOf σ q now).1 e sid r := by
  unfold evaluate_uncached
  cases hs : σ.sessions q.session_id with
  | none =>
      simp only [hs]
      exact h
  | some s0 =>
      simp only [hs]
      exact EvalReady_decideAndFinalize R M σ q _ _ _ _ _ _ _ _ _ hq h

/-- A full evaluate call on another session keeps replay readiness. -/
theorem EvalReady_evaluate_ne {D Q V : Type} (R : RiverOps D Q V)
    (M : MathOps) (navOf : EvaluatePayload → NavMetrics) (σ : Store D Q V)
    (q : EvaluatePayload) (now : ℚ) {e sid : String} {r : EvaluateResponse}
    (hq : q.session_id ≠ sid) (h : EvalReady σ e sid r) :
    EvalReady (evaluate R M navOf σ q now).1 e sid r := by
  unfold evaluate
  split_ifs
  · cases hc : σ.get_cached_eval_response q.session_id with
    | some c =>
        simp only [hc]
        exact h
    | none =>
        simp only [hc]
        exact EvalReady_evaluate_uncached R M navOf σ q now hq h
  · exact EvalReady_evaluate_uncached R M navOf σ q now hq h

/-- Any allowed intervening operation keeps replay readiness. -/
theorem EvalReady_stepOp {D Q V : Type} (R : RiverOps D Q V) (M : MathOps)
    (navOf : EvaluatePayload → NavMetrics) (σ : Store D Q V) (op : Op)
    {e sid : String} {r : EvaluateResponse} (hop : OtherOp sid op)
    (h : EvalReady σ e sid r) : EvalReady (stepOp R M navOf σ op) e sid r := by
  cases op with
  | keyboard p now => exact EvalReady_process_keyboard R M σ p now h
  | mouse p now => exact EvalReady_process_mouse M σ p now h
  | evaluate q now => exact EvalReady_evaluate_ne R M navOf σ q now hop h

/-- Any sequence of allowed intervening operations keeps replay
readiness. -/
theorem EvalReady_runOps {D Q V : Type} (R : RiverOps D Q V) (M : MathOps)
    (navOf : EvaluatePayload → NavMetrics) (ops : List Op)
    {e sid : String} {r : EvaluateResponse}
    (hops : ∀ op ∈ ops, OtherOp sid op) (σ : Store D Q V)
    (h : EvalReady σ e sid r) :
    EvalReady (runOps R M navOf σ ops) e sid r := by
  induction ops generalizing σ with
  | nil => exact h
  | cons op rest ih =>
      exact ih (fun o ho => hops o (List.mem_cons_of_mem op ho)) _
        (EvalReady_stepOp R M navOf σ op (hops op (List.mem_cons_self op rest)) h)

/-- C4 amended: two evaluate calls with the same non-empty `eval_id`,
where the session exists at the first call, the first call completes
with a response, and every operation between the two calls is a keyboard
or mouse stream write (on any session) or an evaluate on another session
— but no evaluate on the same session — give an identical response
payload on the second call, and the second call performs no state
mutation: it returns its input store unchanged.  (As stated over
arbitrary call pairs the claim fails: the cache holds only the most
recent response per session — see
`same_eval_id_different_response_after_interleave`.) -/
theorem evaluate_idempotent_without_interleaved_evaluate {D Q V : Type}
    (R : RiverOps D Q V) (M : MathOps) (navOf : EvaluatePayload → NavMetrics)
    (σ : Store D Q V) (p : EvaluatePayload) (now1 now2 : ℚ)
    (σ1 : Store D Q V) (r1 : EvaluateResponse) (ops : List Op)
    (he : p.eval_id ≠ "") (hsess : σ.sessions p.session_id ≠ none)
    (h1 : evaluate R M navOf σ p now1 = (σ1, some r1))
    (hops : ∀ op ∈ ops, OtherOp p.session_id op) :
    evaluate R M navOf (runOps R M navOf σ1 ops) p now2 =
      (runOps R M navOf σ1 ops, some r1) := by
  have hready : EvalReady σ1 p.eval_id p.session_id r1 := by
    unfold evaluate at h1
    split_ifs at h1 with hproc
    · cases hc : σ.get_cached_eval_response p.session_id with
      | some c =>
          rw [hc] at h1
          rw [Prod.mk.injEq] at h1
          obtain ⟨ha1, ha2⟩ := h1
          rw [Option.some.injEq] at ha2
          subst ha1
          subst ha2
          exact ⟨hproc, hc⟩
      | none =>
          rw [hc] at h1
          rcases evaluate_uncached_ok he h1 with ⟨hn, _, _⟩ | hok
          · exact absurd hn hsess
          · exact hok
    · rcases evaluate_uncached_ok he h1 with ⟨hn, _, _⟩ | hok
      · exact absurd hn hsess
      · exact hok
  obtain ⟨hp2, hc2⟩ := EvalReady_runOps R M navOf ops hops σ1 hready
  unfold evaluate
  rw [if_pos hp2, hc2]

set_option maxRecDepth 1000000 in
unseal Rat.add Rat.mul Rat.inv Rat.sub Rat.ofScientific in
/-- Concrete instance: the first "X" evaluate on session "s" answers
CHALLENGE and caches it; a keyboard write on "s", a mouse write creating
session "t" and a full evaluate on "t" intervene; the replayed "X" call
still returns the first call's exact payload and leaves the store
untouched. -/
theorem evaluate_idempotent_without_interleaved_evaluate_witness :
    c4PayloadX.eval_id ≠ "" ∧ c4Store.sessions "s" ≠ none ∧
    (∀ op ∈ c4OtherOps, OtherOp "s" op) ∧
    evaluate constRiverOps zeroMathOps c4NavOf
        (runOps constRiverOps zeroMathOps c4NavOf c4Run1.1 c4OtherOps)
        c4PayloadX 9 =
      (runOps constRiverOps zeroMathOps c4NavOf c4Run1.1 c4OtherOps,
       some { decision := .CHALLENGE, risk := 0, mode := "CHALLENGE" }) :=
  ⟨by decide, by decide, by decide,
    evaluate_idempotent_without_interleaved_evaluate constRiverOps zeroMathOps
      c4NavOf c4Store c4PayloadX 0 9 c4Run1.1
      { decision := .CHALLENGE, risk := 0, mode := "CHALLENGE" } c4OtherOps
      (by decide) (by decide) (Prod.ext rfl (by decide)) (by decide)⟩

set_option maxRecDepth 1000000 in
unseal Rat.add Rat.mul Rat.inv Rat.sub Rat.ofScientific in
/-- Counterexample to C4 as stated: the pair of calls carrying `eval_id`
"X" straddles an evaluate with `eval_id` "Y" on the same session; the
second "X" call returns the interleaved call's BLOCK payload, not the
first call's CHALLENGE payload, because the cache keys on the session,
not on the eval id. -/
theorem same_eval_id_different_response_after_interleave :
    c4PayloadX.eval_id = "X" ∧
    c4Run1.2 = some { decision := .CHALLENGE, risk := 0, mode := "CHALLENGE" } ∧
    c4Run3.2 = some { decision := .BLOCK, risk := 1, mode := "CHALLENGE" } ∧
    c4Run3.2 ≠ c4Run1.2 := by
  refine ⟨rfl, by decide, by decide, by decide⟩

theorem update_trust_range (s : SessionState) (a b : ℚ) :
    0 ≤ (update_trust s a b).trust_score ∧ (update_trust s a b).trust_score ≤ 1 := by
  unfold update_trust
  split_ifs
  · exact ⟨le_refl 0, zero_le_one⟩
  · exact ⟨le_max_left 0 _, max_le zero_le_one (min_le_left 1 _)⟩

theorem update_mode_trust_score (s : SessionState) (d : SentinelDecision)
    (ha : ℕ) (ht now : ℚ) :
    (update_mode s d ha ht now).trust_score = s.trust_score := by
  unfold update_mode
  split_ifs <;> rfl

theorem update_strikes_block_trust (s : SessionState) :
    (update_strikes s .BLOCK).trust_score = 0 := rfl

theorem preFinalSession_trust_range (s : SessionState) (d : SentinelDecision)
    (risk idr : ℚ) (ha : ℕ) (ht now : ℚ) :
    0 ≤ (preFinalSession s d risk idr ha ht now).trust_score ∧
    (preFinalSession s d risk idr ha ht now).trust_score ≤ 1 :=
  update_trust_range _ _ _

theorem preFinalSession_block_trust (s : SessionState) (risk idr : ℚ)
    (ha : ℕ) (ht now : ℚ) (hrisk : 1/2 ≤ risk) :
    (preFinalSession s .BLOCK risk idr ha ht now).trust_score = 0 := by
  unfold preFinalSession update_trust
  have hz : (update_mode (update_strikes s .BLOCK) .BLOCK ha ht
      now).trust_score = 0 := by
    rw [update_mode_trust_score, update_strikes_block_trust]
  split_ifs
  · rfl
  · rw [hz]
    have h1 : (0.5:ℚ) - risk ≤ 0 := by norm_num; linarith
    have h2 : (0.12:ℚ) * (0.5 - risk) ≤ 0 :=
      mul_nonpos_of_nonneg_of_nonpos (by norm_num) h1
    have h3 : (0:ℚ) + 0.12 * (0.5 - risk) ≤ 0 := by linarith
    rw [min_eq_right (le_trans h3 zero_le_one)]
    simp only []
    exact max_eq_left h3

/-- The non-aborting finalize tail preserves the trust invariant when the
session it persists satisfies it. -/
theorem TrustInv_finalizeStore {D Q V : Type} (R : RiverOps D Q V)
    (σ : Store D Q V) (p : EvaluatePayload) (s : SessionState)
    (d : SentinelDecision) (risk : ℚ) (kb : KeyboardState) (nav now : ℚ)
    (hinv : TrustInv σ) (hlo : 0 ≤ s.trust_score) (hhi : s.trust_score ≤ 1)
    (hblock : d = .BLOCK → s.trust_score = 0) :
    TrustInv (finalizeStore R σ p s d risk kb nav now) := by
  intro sid s2 hsid
  rw [finalizeStore_sessions] at hsid
  unfold setKey at hsid
  by_cases hq : sid = p.session_id
  · rw [if_pos hq, Option.some.injEq] at hsid
    subst hsid
    refine ⟨by rw [auditSession_trust_score]; exact hlo,
      by rw [auditSession_trust_score]; exact hhi, ?_⟩
    intro hd
    rw [auditSession_last_decision, Option.some.injEq] at hd
    rw [auditSession_trust_score]
    exact hblock hd
  · rw [if_neg hq] at hsid
    exact hinv sid s2 hsid

/-- A finalize preserves the trust invariant and never returns a BLOCK
response without persisting a zero trust score, provided a BLOCK decision
comes with a risk of at least one half (true at every call site). -/
theorem finalize_trust {D Q V : Type} (R : RiverOps D Q V) (σ : Store D Q V)
    (p : EvaluatePayload) (sess : SessionState) (d : SentinelDecision)
    (risk : ℚ) (kb : KeyboardState) (nav idr : ℚ) (ha : ℕ) (ht now : ℚ)
    (hinv : TrustInv σ) (hrisk : d = .BLOCK → 1/2 ≤ risk) :
    TrustInv (finalize_evaluate R σ p sess d risk kb nav idr ha ht now).1 ∧
    BlockZero p (finalize_evaluate R σ p sess d risk kb nav idr ha ht now) := by
  unfold finalize_evaluate
  simp only []
  split_ifs with habort
  · constructor
    · intro sid s2 hsid
      rw [learn_with_retry_sessions] at hsid
      exact hinv sid s2 hsid
    · intro r hr
      exact absurd hr (by simp)
  · constructor
    · exact TrustInv_finalizeStore R σ p _ d risk kb nav now hinv
        (preFinalSession_trust_range sess d risk idr ha ht now).1
        (preFinalSession_trust_range sess d risk idr ha ht now).2
        (fun hd => by
          subst hd
          exact preFinalSession_block_trust sess risk idr ha ht now (hrisk rfl))
    · intro r hr hd
      rw [Option.some.injEq] at hr
      subst hr
      refine ⟨auditSession (preFinalSession sess d risk idr ha ht now) p d risk
        now, ?_, ?_⟩
      · rw [finalizeStore_sessions]
        unfold setKey
        rw [if_pos rfl]
      · rw [auditSession_trust_score]
        simp only [] at hd
        subst hd
        exact preFinalSession_block_trust sess risk idr ha ht now (hrisk rfl)

theorem trustedThresholds_challenge_ge :
    (1:ℚ)/2 ≤ trustedThresholds.challenge := by
  unfold trustedThresholds
  norm_num

theorem thresholdsFor_challenge_ge (mode : String) :
    (1:ℚ)/2 ≤ (thresholdsFor mode).challenge := by
  unfold thresholdsFor
  split_ifs <;> norm_num

set_option maxHeartbeats 16000000 in
/-- The hard-block cascade and fusion tail preserve the trust invariant
and the BLOCK-zero property: every BLOCK it finalizes carries risk 1 or a
fused risk above the challenge threshold, which is at least 3/4 in every
threshold table. -/
theorem decideAndFinalize_trust {D Q V : Type} (R : RiverOps D Q V)
    (M : MathOps) (σ : Store D Q V) (p : EvaluatePayload)
    (s4 : SessionState) (kb : KeyboardState) (mr kr nr : ℚ)
    (nd : SentinelDecision) (ir ic now : ℚ) (hinv : TrustInv σ) :
    TrustInv (decideAndFinalize R M σ p s4 kb mr kr nr nd ir ic now).1 ∧
    BlockZero p (decideAndFinalize R M σ p s4 kb mr kr nr nd ir ic now) := by
  unfold decideAndFinalize
  simp only []
  split_ifs <;>
    refine finalize_trust _ _ _ _ _ _ _ _ _ _ _ _ hinv ?_ <;>
    intro hd <;>
    first
      | exact SentinelDecision.noConfusion hd
      | linarith [trustedThresholds_challenge_ge,
          thresholdsFor_challenge_ge s4.mode]

/-- The evaluate pipeline past the idempotency check preserves the trust
invariant and the BLOCK-zero property. -/
theorem evaluate_uncached_trust {D Q V : Type} (R : RiverOps D Q V)
    (M : MathOps) (navOf : EvaluatePayload → NavMetrics) (σ : Store D Q V)
    (p : EvaluatePayload) (now : ℚ) (hinv : TrustInv σ) :
    TrustInv (evaluate_uncached R M navOf σ p now).1 ∧
    BlockZero p (evaluate_uncached R M navOf σ p now) := by
  unfold evaluate_uncached
  cases hs : σ.sessions p.session_id with
  | none =>
      simp only [hs]
      refine ⟨hinv, ?_⟩
      intro r hr hd
      rw [Option.some.injEq] at hr
      subst hr
      exact absurd hd (by decide)
  | some s0 =>
      simp only [hs]
      exact decideAndFinalize_trust R M σ p _ _ _ _ _ _ _ _ _ hinv

/-- A cached response read by `get_cached_eval_response` reflects a
stored session whose `last_decision` is the response's decision. -/
theorem get_cached_spec {D Q V : Type} (σ : Store D Q V) (sid : String)
    (c : EvaluateResponse) (h : σ.get_cached_eval_response sid = some c) :
    ∃ s, σ.sessions sid = some s ∧ s.last_decision = some c.decision := by
  unfold Store.get_cached_eval_response at h
  split at h
  · exact absurd h (by simp)
  · rename_i s hs
    split at h
    · exact absurd h (by simp)
    · rename_i d hd
      rw [Option.some.injEq] at h
      subst h
      exact ⟨s, hs, hd⟩

/-- One evaluate call preserves the trust invariant and satisfies the
BLOCK-zero property. -/
theorem evaluate_trust {D Q V : Type} (R : RiverOps D Q V) (M : MathOps)
    (navOf : EvaluatePayload → NavMetrics) (σ : Store D Q V)
    (p : EvaluatePayload) (now : ℚ) (hinv : TrustInv σ) :
    TrustInv (evaluate R M navOf σ p now).1 ∧
    BlockZero p (evaluate R M navOf σ p now) := by
  unfold evaluate
  split_ifs with hproc
  · cases hc : σ.get_cached_eval_response p.session_id with
    | some c =>
        simp only [hc]
        refine ⟨hinv, ?_⟩
        intro r hr hd
        rw [Option.some.injEq] at hr
        subst hr
        obtain ⟨s, hs, hsd⟩ := get_cached_spec σ p.session_id c hc
        refine ⟨s, hs, ?_⟩
        exact (hinv p.session_id s hs).2.2 (by rw [hsd, hd])
    | none =>
        simp only [hc]
        exact evaluate_uncached_trust R M navOf σ p now hinv
  · exact evaluate_uncached_trust R M navOf σ p now hinv

/-- Writing one session that satisfies the trust conditions into a store
satisfying the invariant yields a store satisfying the invariant. -/
theorem TrustInv_of_setKey {D Q V : Type} (σ σ2 : Store D Q V) (sid : String)
    (s : SessionState) (h2 : σ2.sessions = setKey σ.sessions sid s)
    (hinv : TrustInv σ) (h1 : 0 ≤ s.trust_score) (hle : s.trust_score ≤ 1)
    (hb : s.last_decision = some SentinelDecision.BLOCK → s.trust_score = 0) :
    TrustInv σ2 := by
  intro sid2 s2 hs2
  rw [h2] at hs2
  unfold setKey at hs2
  by_cases hq : sid2 = sid
  · rw [if_pos hq, Option.some.injEq] at hs2
    subst hs2
    exact ⟨h1, hle, hb⟩
  · rw [if_neg hq] at hs2
    exact hinv sid2 s2 hs2

/-- The session re-read by the atomic stream commits (stored value or
fresh defaults) satisfies the trust conditions under the invariant. -/
theorem sessOK_getD {D Q V : Type} (σ : Store D Q V) (sid : String) (now : ℚ)
    (hinv : TrustInv σ) :
    0 ≤ ((σ.sessions sid).getD (SessionState.new now)).trust_score ∧
    ((σ.sessions sid).getD (SessionState.new now)).trust_score ≤ 1 ∧
    (((σ.sessions sid).getD (SessionState.new now)).last_decision =
        some SentinelDecision.BLOCK →
      ((σ.sessions sid).getD (SessionState.new now)).trust_score = 0) := by
  cases hs : σ.sessions sid with
  | none => exact ⟨le_refl 0, zero_le_one, fun _ => rfl⟩
  | some s => exact hinv sid s hs

/-- A keyboard-stream atomic commit whose session closure preserves the
trust score and the last decision preserves the trust invariant. -/
theorem TrustInv_update_keyboard_stream {D Q V : Type} (σ : Store D Q V)
    (sid : String) (f : SessionState → SessionState) (kb : KeyboardState)
    (now : ℚ) (hinv : TrustInv σ)
    (hft : ∀ s, (f s).trust_score = s.trust_score)
    (hfd : ∀ s, (f s).last_decision = s.last_decision) :
    TrustInv (σ.update_keyboard_stream_atomic sid f kb now) := by
  obtain ⟨h1, h2, h3⟩ := sessOK_getD σ sid now hinv
  refine TrustInv_of_setKey σ _ sid _
    (update_keyboard_stream_atomic_sessions σ sid f kb now) hinv ?_ ?_ ?_
  · rw [hft]; exact h1
  · rw [hft]; exact h2
  · intro hd
    rw [hfd] at hd
    rw [hft]
    exact h3 hd

/-- A mouse-stream atomic commit whose session closure preserves the
trust score and the last decision preserves the trust invariant. -/
theorem TrustInv_update_mouse_stream {D Q V : Type} (σ : Store D Q V)
    (sid : String) (f : SessionState → SessionState) (ms : MouseState)
    (now : ℚ) (hinv : TrustInv σ)
    (hft : ∀ s, (f s).trust_score = s.trust_score)
    (hfd : ∀ s, (f s).last_decision = s.last_decision) :
    TrustInv (σ.update_mouse_stream_atomic sid f ms now) := by
  obtain ⟨h1, h2, h3⟩ := sessOK_getD σ sid now hinv
  refine TrustInv_of_setKey σ _ sid _
    (update_mouse_stream_atomic_sessions σ sid f ms now) hinv ?_ ?_ ?_
  · rw [hft]; exact h1
  · rw [hft]; exact h2
  · intro hd
    rw [hfd] at hd
    rw [hft]
    exact h3 hd

/-- Creating a missing session writes fresh defaults (trust 0, no
decision), so session creation preserves the trust invariant. -/
theorem TrustInv_get_or_create {D Q V : Type} (σ : Store D Q V)
    (sid : String) (now : ℚ) (hinv : TrustInv σ) :
    TrustInv (σ.get_or_create_session sid now).1 := by
  unfold Store.get_or_create_session
  cases hs : σ.sessions sid with
  | some s => exact hinv
  | none =>
      exact TrustInv_of_setKey σ _ sid _ rfl hinv (le_refl 0) zero_le_one
        (fun _ => rfl)

/-- Projection of a stream-handler result pair. -/
theorem TrustInv_fst_pair {D Q V : Type} (σ : Store D Q V) (x : StreamResult)
    (h : TrustInv σ) : TrustInv (σ, x).1 := h

set_option maxHeartbeats 4000000 in
/-- A keyboard stream write preserves the trust invariant: its commit
closure copies only batch id, activity timestamp and window counters. -/
theorem TrustInv_process_keyboard_stream {D Q V : Type} (R : RiverOps D Q V)
    (M : MathOps) (σ : Store D Q V) (p : KeyboardStreamPayload) (now : ℚ)
    (hinv : TrustInv σ) :
    TrustInv (process_keyboard_stream R M σ p now).1 := by
  have h0 : TrustInv (σ.get_or_create_session p.session_id now).1 :=
    TrustInv_get_or_create σ p.session_id now hinv
  unfold process_keyboard_stream
  simp only []
  split_ifs
  · exact h0
  · refine TrustInv_fst_pair _ _ ?_
    refine TrustInv_update_keyboard_stream _ _ _ _ _ h0 ?_ ?_
    · intro s
      rfl
    · intro s
      rfl
  · refine TrustInv_fst_pair _ _ ?_
    refine TrustInv_update_keyboard_stream _ _ _ _ _ h0 ?_ ?_
    · intro s
      rfl
    · intro s
      rfl

set_option maxHeartbeats 4000000 in
/-- A mouse stream write preserves the trust invariant: its commit
closure copies only batch id and activity timestamp. -/
theorem TrustInv_process_mouse_stream {D Q V : Type} (M : MathOps)
    (σ : Store D Q V) (p : MouseStreamPayload) (now : ℚ)
    (hinv : TrustInv σ) :
    TrustInv (process_mouse_stream M σ p now).1 := by
  have h0 : TrustInv (σ.get_or_create_session p.session_id now).1 :=
    TrustInv_get_or_create σ p.session_id now hinv
  unfold process_mouse_stream
  simp only []
  split_ifs
  · exact h0
  · refine TrustInv_fst_pair _ _ ?_
    refine TrustInv_update_mouse_stream _ _ _ _ _ h0 ?_ ?_
    · intro s
      rfl
    · intro s
      rfl
  · refine TrustInv_fst_pair _ _ ?_
    refine TrustInv_update_mouse_stream _ _ _ _ _ h0 ?_ ?_
    · intro s
      rfl
    · intro s
      rfl

/-- Every externally visible operation preserves the trust invariant. -/
theorem TrustInv_stepOp {D Q V : Type} (R : RiverOps D Q V) (M : MathOps)
    (navOf : EvaluatePayload → NavMetrics) (σ : Store D Q V) (op : Op)
    (hinv : TrustInv σ) : TrustInv (stepOp R M navOf σ op) := by
  cases op with
  | keyboard p now => exact TrustInv_process_keyboard_stream R M σ p now hinv
  | mouse p now => exact TrustInv_process_mouse_stream M σ p now hinv
  | evaluate p now => exact (evaluate_trust R M navOf σ p now hinv).1

/-- Every operation sequence preserves the trust invariant. -/
theorem TrustInv_runOps {D Q V : Type} (R : RiverOps D Q V) (M : MathOps)
    (navOf : EvaluatePayload → NavMetrics) (ops : List Op) (σ : Store D Q V)
    (hinv : TrustInv σ) : TrustInv (runOps R M navOf σ ops) := by
  induction ops generalizing σ with
  | nil => exact hinv
  | cons op rest ih => exact ih _ (TrustInv_stepOp R M navOf σ op hinv)

/-- The empty store holds no session, so the invariant holds vacuously. -/
theorem TrustInv_empty {D Q V : Type} : TrustInv (Store.empty : Store D Q V) :=
  fun _ _ hs => Option.noConfusion hs

/-- C5: over every sequence of keyboard-stream, mouse-stream and evaluate
operations from the empty store, every persisted session's trust score
lies in [0, 1]; and when an evaluate call on such a reachable store
returns a BLOCK decision, the session it persists has trust score exactly
0 at the end of that call. -/
theorem trust_score_bounds_and_block_zero {D Q V : Type} (R : RiverOps D Q V)
    (M : MathOps) (navOf : EvaluatePayload → NavMetrics) (ops : List Op)
    (p : EvaluatePayload) (now : ℚ) (r : EvaluateResponse)
    (hr : (evaluate R M navOf (runOps R M navOf Store.empty ops) p now).2 =
      some r)
    (hd : r.decision = SentinelDecision.BLOCK) :
    TrustInv (runOps R M navOf Store.empty ops) ∧
    ∃ s, (evaluate R M navOf (runOps R M navOf Store.empty ops) p
        now).1.sessions p.session_id = some s ∧ s.trust_score = 0 := by
  have hinv := TrustInv_runOps R M navOf ops Store.empty TrustInv_empty
  exact ⟨hinv, (evaluate_trust R M navOf _ p now hinv).2 r hr hd⟩

unseal Rat.add Rat.mul Rat.inv Rat.sub Rat.ofScientific in
set_option maxRecDepth 1000000 in
/-- Concrete instantiation: create session "s" with a mouse write, then
evaluate with impossible-travel metrics; the call hard-blocks and the
persisted trust score is 0. -/
theorem trust_score_bounds_and_block_zero_witness :
    (evaluate constRiverOps zeroMathOps c4NavOf
        (runOps constRiverOps zeroMathOps c4NavOf Store.empty c5Ops)
        c4PayloadY 0).2 =
      some { decision := .BLOCK, risk := 1, mode := "NORMAL" } ∧
    (TrustInv (runOps constRiverOps zeroMathOps c4NavOf Store.empty c5Ops) ∧
     ∃ s, (evaluate constRiverOps zeroMathOps c4NavOf
         (runOps constRiverOps zeroMathOps c4NavOf Store.empty c5Ops)
         c4PayloadY 0).1.sessions c4PayloadY.session_id = some s ∧
       s.trust_score = 0) :=
  ⟨by decide,
    trust_score_bounds_and_block_zero constRiverOps zeroMathOps c4NavOf c5Ops
      c4PayloadY 0 { decision := .BLOCK, risk := 1, mode := "NORMAL" }
      (by decide) (by decide)⟩

end Sentinel
